import Mathlib

/-!
Shallow embedding of the adnan-backend Flask application (src/app.py): the
Supabase upload helper, the contact-message read toggle, the per-entity
edit/delete handlers and the public JSON GET endpoints, modelled as pure
functions over an explicit database state.
-/

/-- Minimal JSON value model for the payloads produced by jsonify. -/
inductive Json where
  | null : Json
  | str : String → Json
  | num : Nat → Json
  | bool : Bool → Json
  | arr : List Json → Json
  | obj : List (String × Json) → Json
deriving Repr

/-- Python truthiness of request.form.get(k): truthy iff present and nonempty. -/
def isTruthy : Option String → Bool
  | some s => s != ""
  | none => false

/-- Serialize an optional string column (NULL becomes JSON null). -/
def optToJson : Option String → Json
  | some s => Json.str s
  | none => Json.null

/-- A submitted file (werkzeug FileStorage): filename, raw bytes, content type. -/
structure UploadedFile where
  filename : String
  content : List Nat
  contentType : Option String
deriving Repr, DecidableEq

/-- One call to supabase.storage.upload: destination path, bytes, content type. -/
structure UploadRequest where
  path : String
  content : List Nat
  contentType : String
deriving Repr, DecidableEq

/-- External-world parameters of handle_file_upload: the fresh uuid4 hex
eight-character value, werkzeug's secure_filename, whether the storage call
raises, and the public URL the bucket reports for a path. -/
structure UploadEnv where
  uuidHex8 : String
  secureFilename : String → String
  uploadOk : UploadRequest → Bool
  publicUrl : String → String

/-- src/app.py lines 67-94, handle_file_upload: missing file or empty filename
returns None; otherwise the storage path joins the subfolder, the fresh uuid
hex value, an underscore and the sanitized name, the bytes are uploaded with the content type (defaulted to
application/octet-stream) and the public URL is returned, or None if the upload
raises.  The second component records the storage upload calls attempted. -/
def handle_file_upload (env : UploadEnv) (file : Option UploadedFile)
    (subfolder : String) : Option String × List UploadRequest :=
  match file with
  | none => (none, [])
  | some f =>
    if f.filename = "" then (none, [])
    else
      let original_filename := env.secureFilename f.filename
      let unique_filename := env.uuidHex8 ++ "_" ++ original_filename
      let file_path := subfolder ++ "/" ++ unique_filename
      let content_type := f.contentType.getD "application/octet-stream"
      let req : UploadRequest := ⟨file_path, f.content, content_type⟩
      if env.uploadOk req then (some (env.publicUrl file_path), [req])
      else (none, [req])

/-- The URL a handler's upload step produces: None when no file input was
submitted with the request (the helper is not even called), otherwise the
helper's result. -/
def uploadedUrl (env : UploadEnv) (file : Option UploadedFile)
    (subfolder : String) : Option String :=
  match file with
  | none => none
  | some f => (handle_file_upload env (some f) subfolder).1

/-- The stored URL after a handler's upload step, which assigns only under
`if url:`: the freshly uploaded URL when one was produced, otherwise the value
the field held just before the upload step. -/
def urlAfterUpload (uploaded : Option String) (prev : Option String) :
    Option String :=
  match uploaded with
  | some url => some url
  | none => prev

/-- Modelled from the spec: models.py is not under src/; the About singleton
record carries the fields assigned by update_about plus the row id. -/
structure About where
  id : Nat
  name : Option String
  birthday : Option String
  website : Option String
  phone : Option String
  city : Option String
  age : Option String
  degree : Option String
  email : Option String
  freelance_status : Option String
  short_bio : Option String
  long_bio : Option String
  github : Option String
  facebook : Option String
  linkedin : Option String
  whatsapp : Option String
  instagram : Option String
  twitter : Option String
  resume_link : Option String
  profile_image : Option String
  mini_profile_image : Option String
deriving Repr, DecidableEq

/-- Modelled from the spec: models.py is not under src/; Skill rows carry the
fields used by add_skill and edit_skill. -/
structure Skill where
  id : Nat
  name : String
  percentage : String
  image_url : Option String
deriving Repr, DecidableEq

/-- Modelled from the spec: models.py is not under src/. -/
structure Education where
  id : Nat
  degree : String
  institution : String
  year_range : String
  description : String
  logo_url : Option String
deriving Repr, DecidableEq

/-- Modelled from the spec: models.py is not under src/. -/
structure Experience where
  id : Nat
  role : String
  company : String
  year_range : String
  description : String
deriving Repr, DecidableEq

/-- Modelled from the spec: models.py is not under src/. -/
structure Project where
  id : Nat
  title : String
  category : String
  image_url : Option String
  project_link : String
deriving Repr, DecidableEq

/-- Modelled from the spec: models.py is not under src/. -/
structure Research where
  id : Nat
  title : String
  description : String
  link : Option String
  publication_date : String
deriving Repr, DecidableEq

/-- Modelled from the spec: models.py is not under src/. -/
structure Achievement where
  id : Nat
  title : String
  description : String
  date : String
  link : String
deriving Repr, DecidableEq

/-- Modelled from the spec: models.py is not under src/. -/
structure Blog where
  id : Nat
  title : String
  content : String
  tags : String
  date : String
  cover_image : Option String
deriving Repr, DecidableEq

/-- Modelled from the spec: models.py is not under src/; contact messages
carry the four submitted fields and the read/unread flag. -/
structure ContactMessage where
  id : Nat
  name : Option String
  email : Option String
  subject : Option String
  message : Option String
  read : Bool
deriving Repr, DecidableEq

/-- The relational store: one list of rows per table. -/
structure DB where
  abouts : List About
  skills : List Skill
  education : List Education
  experience : List Experience
  projects : List Project
  research : List Research
  achievements : List Achievement
  blogs : List Blog
  messages : List ContactMessage
deriving Repr, DecidableEq

/-- HTTP responses the embedded handlers produce. -/
inductive Response where
  | notFound
  | redirect (tab : String)
  | jsonMessageRead (success : Bool) (unread_count : Nat)
  | json (v : Json)
deriving Repr

/-- Modelled from the spec: field-wise JSON serialization used by /api/about. -/
def About.to_dict (a : About) : Json :=
  Json.obj [("id", Json.num a.id), ("name", optToJson a.name),
    ("birthday", optToJson a.birthday), ("website", optToJson a.website),
    ("phone", optToJson a.phone), ("city", optToJson a.city),
    ("age", optToJson a.age), ("degree", optToJson a.degree),
    ("email", optToJson a.email), ("freelance_status", optToJson a.freelance_status),
    ("short_bio", optToJson a.short_bio), ("long_bio", optToJson a.long_bio),
    ("github", optToJson a.github), ("facebook", optToJson a.facebook),
    ("linkedin", optToJson a.linkedin), ("whatsapp", optToJson a.whatsapp),
    ("instagram", optToJson a.instagram), ("twitter", optToJson a.twitter),
    ("resume_link", optToJson a.resume_link),
    ("profile_image", optToJson a.profile_image),
    ("mini_profile_image", optToJson a.mini_profile_image)]

/-- Modelled from the spec: field-wise JSON serialization used by /api/skills. -/
def Skill.to_dict (s : Skill) : Json :=
  Json.obj [("id", Json.num s.id), ("name", Json.str s.name),
    ("percentage", Json.str s.percentage), ("image_url", optToJson s.image_url)]

/-- Modelled from the spec: field-wise JSON serialization used by /api/education. -/
def Education.to_dict (e : Education) : Json :=
  Json.obj [("id", Json.num e.id), ("degree", Json.str e.degree),
    ("institution", Json.str e.institution), ("year_range", Json.str e.year_range),
    ("description", Json.str e.description), ("logo_url", optToJson e.logo_url)]

/-- Modelled from the spec: field-wise JSON serialization used by /api/experience. -/
def Experience.to_dict (e : Experience) : Json :=
  Json.obj [("id", Json.num e.id), ("role", Json.str e.role),
    ("company", Json.str e.company), ("year_range", Json.str e.year_range),
    ("description", Json.str e.description)]

/-- Modelled from the spec: field-wise JSON serialization used by /api/projects. -/
def Project.to_dict (p : Project) : Json :=
  Json.obj [("id", Json.num p.id), ("title", Json.str p.title),
    ("category", Json.str p.category), ("image_url", optToJson p.image_url),
    ("project_link", Json.str p.project_link)]

/-- Modelled from the spec: field-wise JSON serialization used by /api/research. -/
def Research.to_dict (r : Research) : Json :=
  Json.obj [("id", Json.num r.id), ("title", Json.str r.title),
    ("description", Json.str r.description), ("link", optToJson r.link),
    ("publication_date", Json.str r.publication_date)]

/-- Modelled from the spec: field-wise JSON serialization used by /api/achievements. -/
def Achievement.to_dict (a : Achievement) : Json :=
  Json.obj [("id", Json.num a.id), ("title", Json.str a.title),
    ("description", Json.str a.description), ("date", Json.str a.date),
    ("link", Json.str a.link)]

/-- Modelled from the spec: field-wise JSON serialization used by /api/blogs. -/
def Blog.to_dict (b : Blog) : Json :=
  Json.obj [("id", Json.num b.id), ("title", Json.str b.title),
    ("content", Json.str b.content), ("tags", Json.str b.tags),
    ("date", Json.str b.date), ("cover_image", optToJson b.cover_image)]

/-- Number of unread contact messages
(ContactMessage.query.filter_by(read=False).count()). -/
def unreadCount (msgs : List ContactMessage) : Nat :=
  (msgs.filter (fun m => !m.read)).length

/-- Set the read flag of the message with the given id (no-op on others). -/
def setRead (id : Nat) (m : ContactMessage) : ContactMessage :=
  if m.id == id then { m with read := true } else m

/-- src/app.py lines 220-228, mark_message_read: 404 when the id is missing;
otherwise the message's read flag is set and the fresh unread count returned. -/
def mark_message_read (db : DB) (id : Nat) : DB × Response :=
  match db.messages.find? (fun m => m.id == id) with
  | none => (db, Response.notFound)
  | some _ =>
    let db2 : DB := { db with messages := db.messages.map (setRead id) }
    (db2, Response.jsonMessageRead true (unreadCount db2.messages))

/-- Form fields of /update/about: the text inputs (request.form.get, absent
means None) and the three optional file inputs (absent key means no upload). -/
structure AboutForm where
  name : Option String
  birthday : Option String
  website : Option String
  phone : Option String
  city : Option String
  age : Option String
  degree : Option String
  email : Option String
  freelance_status : Option String
  short_bio : Option String
  long_bio : Option String
  github : Option String
  facebook : Option String
  linkedin : Option String
  whatsapp : Option String
  instagram : Option String
  twitter : Option String
  resume_link : Option String
  profile_image : Option String
  mini_profile_image : Option String
  resume_file : Option UploadedFile
  image_file : Option UploadedFile
  mini_image_file : Option UploadedFile

/-- A fresh About() row as created by update_about when none exists. -/
def newAbout : About :=
  ⟨0, none, none, none, none, none, none, none, none, none, none, none, none,
   none, none, none, none, none, none, none, none⟩

/-- Basic-info and social-link assignments of update_about (src/app.py lines
240-259): every text field is overwritten from the form. -/
def aboutSetTexts (form : AboutForm) (a : About) : About :=
  { a with
    name := form.name, birthday := form.birthday, website := form.website,
    phone := form.phone, city := form.city, age := form.age,
    degree := form.degree, email := form.email,
    freelance_status := form.freelance_status, short_bio := form.short_bio,
    long_bio := form.long_bio, github := form.github,
    facebook := form.facebook, linkedin := form.linkedin,
    whatsapp := form.whatsapp, instagram := form.instagram,
    twitter := form.twitter }

/-- Resume assignments of update_about (src/app.py lines 261-267): a truthy
text field overwrites resume_link, then a successful upload overwrites it. -/
def aboutSetResume (env : UploadEnv) (form : AboutForm) (a : About) : About :=
  let a2 : About :=
    if isTruthy form.resume_link then { a with resume_link := form.resume_link }
    else a
  match form.resume_file with
  | none => a2
  | some f =>
    match (handle_file_upload env (some f) "resumes").1 with
    | some url => { a2 with resume_link := some url }
    | none => a2

/-- Main profile image assignments of update_about (src/app.py lines 269-275). -/
def aboutSetProfile (env : UploadEnv) (form : AboutForm) (a : About) : About :=
  let a2 : About :=
    if isTruthy form.profile_image then { a with profile_image := form.profile_image }
    else a
  match form.image_file with
  | none => a2
  | some f =>
    match (handle_file_upload env (some f) "profile").1 with
    | some url => { a2 with profile_image := some url }
    | none => a2

/-- Mini profile image assignments of update_about (src/app.py lines 277-283). -/
def aboutSetMini (env : UploadEnv) (form : AboutForm) (a : About) : About :=
  let a2 : About :=
    if isTruthy form.mini_profile_image then
      { a with mini_profile_image := form.mini_profile_image }
    else a
  match form.mini_image_file with
  | none => a2
  | some f =>
    match (handle_file_upload env (some f) "profile").1 with
    | some url => { a2 with mini_profile_image := some url }
    | none => a2

/-- Field assignments of update_about (src/app.py lines 240-283) applied to
one About row, in source order: text fields, resume, profile image, mini
profile image. -/
def applyAboutForm (env : UploadEnv) (form : AboutForm) (a : About) : About :=
  aboutSetMini env form (aboutSetProfile env form (aboutSetResume env form
    (aboutSetTexts form a)))

/-- src/app.py lines 232-287, update_about: mutate the first About row in
place, or add a fresh one when the table is empty. -/
def update_about (env : UploadEnv) (db : DB) (form : AboutForm) : DB × Response :=
  match db.abouts with
  | [] =>
    ({ db with abouts := [applyAboutForm env form newAbout] }, Response.redirect "about")
  | a :: rest =>
    ({ db with abouts := applyAboutForm env form a :: rest }, Response.redirect "about")

/-- Form fields of /edit/skill (name and percentage are required fields). -/
structure SkillForm where
  name : String
  percentage : String
  image_file : Option UploadedFile

/-- Field assignments of edit_skill (src/app.py lines 311-316) on one row. -/
def applySkillEdit (env : UploadEnv) (form : SkillForm) (s : Skill) : Skill :=
  let s1 : Skill := { s with name := form.name, percentage := form.percentage }
  match form.image_file with
  | none => s1
  | some f =>
    match (handle_file_upload env (some f) "skills").1 with
    | some url => { s1 with image_url := some url }
    | none => s1

/-- src/app.py lines 307-320, edit_skill: 404 when the id is missing,
otherwise update the row in place and redirect. -/
def edit_skill (env : UploadEnv) (db : DB) (id : Nat) (form : SkillForm) :
    DB × Response :=
  match db.skills.find? (fun s => s.id == id) with
  | none => (db, Response.notFound)
  | some _ =>
    ({ db with skills := db.skills.map (fun s =>
        if s.id == id then applySkillEdit env form s else s) },
     Response.redirect "skills")

/-- src/app.py lines 322-327, delete_skill: unconditional delete-by-id then
redirect (no not-found branch). -/
def delete_skill (db : DB) (id : Nat) : DB × Response :=
  ({ db with skills := db.skills.filter (fun s => s.id != id) },
   Response.redirect "skills")

/-- Form fields of /edit/education. -/
structure EducationForm where
  degree : String
  institution : String
  year_range : String
  description : String
  logo_file : Option UploadedFile

/-- Field assignments of edit_education (src/app.py lines 353-361) on one row. -/
def applyEducationEdit (env : UploadEnv) (form : EducationForm) (e : Education) :
    Education :=
  let e1 : Education := { e with
    degree := form.degree, institution := form.institution,
    year_range := form.year_range, description := form.description }
  match form.logo_file with
  | none => e1
  | some f =>
    match (handle_file_upload env (some f) "education").1 with
    | some url => { e1 with logo_url := some url }
    | none => e1

/-- src/app.py lines 349-365, edit_education. -/
def edit_education (env : UploadEnv) (db : DB) (id : Nat) (form : EducationForm) :
    DB × Response :=
  match db.education.find? (fun e => e.id == id) with
  | none => (db, Response.notFound)
  | some _ =>
    ({ db with education := db.education.map (fun e =>
        if e.id == id then applyEducationEdit env form e else e) },
     Response.redirect "education")

/-- src/app.py lines 367-372, delete_education. -/
def delete_education (db : DB) (id : Nat) : DB × Response :=
  ({ db with education := db.education.filter (fun e => e.id != id) },
   Response.redirect "education")

/-- Form fields of /edit/experience. -/
structure ExperienceForm where
  role : String
  company : String
  year_range : String
  description : String

/-- Field assignments of edit_experience (src/app.py lines 398-401) on one
row. -/
def applyExperienceEdit (form : ExperienceForm) (e : Experience) : Experience :=
  { e with
    role := form.role, company := form.company,
    year_range := form.year_range, description := form.description }

/-- src/app.py lines 394-404, edit_experience (no file upload). -/
def edit_experience (db : DB) (id : Nat) (form : ExperienceForm) :
    DB × Response :=
  match db.experience.find? (fun e => e.id == id) with
  | none => (db, Response.notFound)
  | some _ =>
    ({ db with experience := db.experience.map (fun e =>
        if e.id == id then applyExperienceEdit form e else e) },
     Response.redirect "experience")

/-- src/app.py lines 387-392, delete_experience. -/
def delete_experience (db : DB) (id : Nat) : DB × Response :=
  ({ db with experience := db.experience.filter (fun e => e.id != id) },
   Response.redirect "experience")

/-- Form fields of /edit/project: required text fields, the optional image_url
text field, and the optional image_file upload. -/
structure ProjectForm where
  title : String
  category : String
  project_link : String
  image_url : Option String
  image_file : Option UploadedFile

/-- Field assignments of edit_project (src/app.py lines 436-445) on one row:
image_url is overwritten by a truthy text field and then by a successful upload. -/
def applyProjectEdit (env : UploadEnv) (form : ProjectForm) (p : Project) :
    Project :=
  let p1 : Project := { p with
    title := form.title, category := form.category,
    project_link := form.project_link }
  let p2 : Project :=
    if isTruthy form.image_url then { p1 with image_url := form.image_url }
    else p1
  match form.image_file with
  | none => p2
  | some f =>
    match (handle_file_upload env (some f) "projects").1 with
    | some url => { p2 with image_url := some url }
    | none => p2

/-- src/app.py lines 432-449, edit_project. -/
def edit_project (env : UploadEnv) (db : DB) (id : Nat) (form : ProjectForm) :
    DB × Response :=
  match db.projects.find? (fun p => p.id == id) with
  | none => (db, Response.notFound)
  | some _ =>
    ({ db with projects := db.projects.map (fun p =>
        if p.id == id then applyProjectEdit env form p else p) },
     Response.redirect "projects")

/-- src/app.py lines 425-430, delete_project. -/
def delete_project (db : DB) (id : Nat) : DB × Response :=
  ({ db with projects := db.projects.filter (fun p => p.id != id) },
   Response.redirect "projects")

/-- Form fields of /edit/research (all four text fields are required). -/
structure ResearchForm where
  title : String
  publication_date : String
  link : String
  description : String
  research_pdf : Option UploadedFile

/-- Field assignments of edit_research (src/app.py lines 481-488) on one row:
link is always overwritten from the form text field, then by a successful
upload. -/
def applyResearchEdit (env : UploadEnv) (form : ResearchForm) (r : Research) :
    Research :=
  let r1 : Research := { r with
    title := form.title, publication_date := form.publication_date,
    link := some form.link, description := form.description }
  match form.research_pdf with
  | none => r1
  | some f =>
    match (handle_file_upload env (some f) "research").1 with
    | some url => { r1 with link := some url }
    | none => r1

/-- src/app.py lines 477-492, edit_research. -/
def edit_research (env : UploadEnv) (db : DB) (id : Nat) (form : ResearchForm) :
    DB × Response :=
  match db.research.find? (fun r => r.id == id) with
  | none => (db, Response.notFound)
  | some _ =>
    ({ db with research := db.research.map (fun r =>
        if r.id == id then applyResearchEdit env form r else r) },
     Response.redirect "research")

/-- src/app.py lines 470-475, delete_research. -/
def delete_research (db : DB) (id : Nat) : DB × Response :=
  ({ db with research := db.research.filter (fun r => r.id != id) },
   Response.redirect "research")

/-- Form fields of /edit/achievement. -/
structure AchievementForm where
  title : String
  description : String
  date : String
  link : String

/-- Field assignments of edit_achievement (src/app.py lines 520-523) on one
row. -/
def applyAchievementEdit (form : AchievementForm) (a : Achievement) :
    Achievement :=
  { a with
    title := form.title, description := form.description,
    date := form.date, link := form.link }

/-- src/app.py lines 516-526, edit_achievement (no file upload). -/
def edit_achievement (db : DB) (id : Nat) (form : AchievementForm) :
    DB × Response :=
  match db.achievements.find? (fun a => a.id == id) with
  | none => (db, Response.notFound)
  | some _ =>
    ({ db with achievements := db.achievements.map (fun a =>
        if a.id == id then applyAchievementEdit form a else a) },
     Response.redirect "achievements")

/-- src/app.py lines 509-514, delete_achievement. -/
def delete_achievement (db : DB) (id : Nat) : DB × Response :=
  ({ db with achievements := db.achievements.filter (fun a => a.id != id) },
   Response.redirect "achievements")

/-- Form fields of /edit/blog. -/
structure BlogForm where
  title : String
  content : String
  tags : String
  date : String
  cover_file : Option UploadedFile

/-- Field assignments of edit_blog (src/app.py lines 560-567) on one row. -/
def applyBlogEdit (env : UploadEnv) (form : BlogForm) (b : Blog) : Blog :=
  let b1 : Blog := { b with
    title := form.title, content := form.content,
    tags := form.tags, date := form.date }
  match form.cover_file with
  | none => b1
  | some f =>
    match (handle_file_upload env (some f) "blog").1 with
    | some url => { b1 with cover_image := some url }
    | none => b1

/-- src/app.py lines 556-571, edit_blog. -/
def edit_blog (env : UploadEnv) (db : DB) (id : Nat) (form : BlogForm) :
    DB × Response :=
  match db.blogs.find? (fun b => b.id == id) with
  | none => (db, Response.notFound)
  | some _ =>
    ({ db with blogs := db.blogs.map (fun b =>
        if b.id == id then applyBlogEdit env form b else b) },
     Response.redirect "blog")

/-- src/app.py lines 549-554, delete_blog. -/
def delete_blog (db : DB) (id : Nat) : DB × Response :=
  ({ db with blogs := db.blogs.filter (fun b => b.id != id) },
   Response.redirect "blog")

/-- src/app.py lines 576-579, get_about: first row serialized, or an empty
object. -/
def get_about (db : DB) : DB × Response :=
  match db.abouts with
  | [] => (db, Response.json (Json.obj []))
  | a :: _ => (db, Response.json (About.to_dict a))

/-- src/app.py lines 581-584, get_skills. -/
def get_skills (db : DB) : DB × Response :=
  (db, Response.json (Json.arr (db.skills.map Skill.to_dict)))

/-- src/app.py lines 586-589, get_education. -/
def get_education (db : DB) : DB × Response :=
  (db, Response.json (Json.arr (db.education.map Education.to_dict)))

/-- src/app.py lines 591-594, get_experience. -/
def get_experience (db : DB) : DB × Response :=
  (db, Response.json (Json.arr (db.experience.map Experience.to_dict)))

/-- src/app.py lines 596-599, get_projects. -/
def get_projects (db : DB) : DB × Response :=
  (db, Response.json (Json.arr (db.projects.map Project.to_dict)))

/-- src/app.py lines 601-604, get_research. -/
def get_research (db : DB) : DB × Response :=
  (db, Response.json (Json.arr (db.research.map Research.to_dict)))

/-- src/app.py lines 606-609, get_achievements. -/
def get_achievements (db : DB) : DB × Response :=
  (db, Response.json (Json.arr (db.achievements.map Achievement.to_dict)))

/-- src/app.py lines 611-614, get_blogs. -/
def get_blogs (db : DB) : DB × Response :=
  (db, Response.json (Json.arr (db.blogs.map Blog.to_dict)))

/-- The id entry of a serialized record, if any. -/
def jsonObjId : Json → Option Nat
  | Json.obj fields =>
    match fields.lookup "id" with
    | some (Json.num n) => some n
    | _ => none
  | _ => none

/-- The empty store. -/
def emptyDB : DB := ⟨[], [], [], [], [], [], [], [], []⟩

/-- A concrete upload environment whose storage calls always succeed. -/
def envOk : UploadEnv :=
  ⟨"abcd1234", fun s => s, fun _ => true, fun p => "https://cdn.example/" ++ p⟩

/-- A concrete upload environment whose storage calls always raise. -/
def envFail : UploadEnv :=
  ⟨"abcd1234", fun s => s, fun _ => false, fun p => "https://cdn.example/" ++ p⟩

/-- A concrete submitted PDF file. -/
def pdfFile : UploadedFile := ⟨"paper.pdf", [37, 80, 68, 70], some "application/pdf"⟩

/-- A concrete submitted image file. -/
def pngFile : UploadedFile := ⟨"logo.png", [137, 80, 78, 71], some "image/png"⟩

/-- A FileStorage submitted with an empty filename (no file chosen). -/
def emptyFile : UploadedFile := ⟨"", [], none⟩

/-- A concrete About row with stored resume and profile URLs. -/
def aboutW : About := { newAbout with
  id := 1, name := some "Adnan",
  resume_link := some "https://cdn.example/resumes/old.pdf",
  profile_image := some "https://cdn.example/profile/old.png" }

/-- Concrete sample rows. -/
def skillW1 : Skill := ⟨1, "Python", "90", some "https://cdn.example/skills/py.png"⟩

/-- A second skill row, untouched by edits of the first. -/
def skillW2 : Skill := ⟨2, "Flask", "80", none⟩

/-- A concrete education row. -/
def eduW : Education := ⟨1, "BSc", "BUET", "2018-2022", "CS", none⟩

/-- A second education row, untouched by edits of the first. -/
def eduW2 : Education := ⟨2, "HSC", "NDC", "2016-2018", "Science", none⟩

/-- A concrete experience row. -/
def expW : Experience := ⟨1, "Developer", "Acme", "2022-2024", "Backend work"⟩

/-- A second experience row. -/
def expW2 : Experience := ⟨2, "Intern", "Initech", "2021-2022", "QA work"⟩

/-- A concrete project row with a stored image URL. -/
def projW1 : Project := ⟨1, "Site", "web", some "https://cdn.example/projects/old.png", "https://site"⟩

/-- A second project row. -/
def projW2 : Project := ⟨2, "App", "mobile", none, "https://app"⟩

/-- A concrete research row with a stored link. -/
def resW : Research := ⟨1, "Paper", "About X", some "https://cdn.example/research/old.pdf", "2024"⟩

/-- A second research row. -/
def resW2 : Research := ⟨2, "Thesis", "About Y", none, "2023"⟩

/-- A concrete achievement row. -/
def achW : Achievement := ⟨1, "Award", "Won it", "2023", "https://award"⟩

/-- A second achievement row. -/
def achW2 : Achievement := ⟨2, "Medal", "Earned it", "2022", "https://medal"⟩

/-- A concrete blog row with a stored cover image. -/
def blogW : Blog := ⟨1, "Post", "Text", "life", "2024", some "https://cdn.example/blog/old.png"⟩

/-- A second blog row. -/
def blogW2 : Blog := ⟨2, "Note", "More text", "tech", "2023", none⟩

/-- An unread contact message. -/
def msgUnread : ContactMessage := ⟨1, some "Bob", some "b@x.com", some "Hi", some "Hello", false⟩

/-- An already-read contact message. -/
def msgRead : ContactMessage := ⟨2, some "Eve", some "e@x.com", some "Yo", some "Sup", true⟩

/-- A populated concrete store. -/
def dbW : DB := ⟨[aboutW], [skillW1, skillW2], [eduW, eduW2], [expW, expW2],
  [projW1, projW2], [resW, resW2], [achW, achW2], [blogW, blogW2],
  [msgUnread, msgRead]⟩

/-- The populated store after the message with id 1 is marked read. -/
def dbW1 : DB := { dbW with
  messages := [⟨1, some "Bob", some "b@x.com", some "Hi", some "Hello", true⟩, msgRead] }

/-- A concrete about form submitting only a resume file upload. -/
def aboutFormW : AboutForm := {
  name := some "Adnan", birthday := none, website := none, phone := none,
  city := none, age := none, degree := none, email := none,
  freelance_status := none, short_bio := some "bio", long_bio := none,
  github := none, facebook := none, linkedin := none, whatsapp := none,
  instagram := none, twitter := none, resume_link := none,
  profile_image := none, mini_profile_image := none,
  resume_file := some pdfFile, image_file := some pngFile,
  mini_image_file := none }

/-- A concrete skill edit form with an attached image file. -/
def sformW : SkillForm := ⟨"Python", "95", some pngFile⟩

/-- A concrete skill edit form with no file input. -/
def sformNoFile : SkillForm := ⟨"Python", "95", none⟩

/-- A concrete skill edit form whose file input was left empty. -/
def sformEmptyFile : SkillForm := ⟨"Python", "95", some emptyFile⟩

/-- A concrete education edit form. -/
def eformW : EducationForm := ⟨"MSc", "BUET", "2022-2024", "CS", none⟩

/-- A concrete experience edit form. -/
def xformW : ExperienceForm := ⟨"Lead", "Acme", "2024-2025", "More backend"⟩

/-- A concrete project edit form with an attached image file and no text URL. -/
def pformW : ProjectForm := ⟨"Site", "web", "https://site", none, some pngFile⟩

/-- A concrete project edit form with a text URL and no file chosen. -/
def pformText : ProjectForm := ⟨"Site", "web", "https://site", some "https://new.png", none⟩

/-- A concrete project edit form with neither a file nor a text URL. -/
def pformNoFile : ProjectForm := ⟨"Site2", "web", "https://site2", none, none⟩

/-- A concrete research edit form with an attached PDF. -/
def rformW : ResearchForm := ⟨"Paper", "2024", "https://new-link", "About X", some pdfFile⟩

/-- A concrete achievement edit form. -/
def aformW : AchievementForm := ⟨"Award", "Won more", "2024", "https://award"⟩

/-- A concrete blog edit form with an attached cover file. -/
def bformW : BlogForm := ⟨"Post", "Text2", "life", "2025", some pngFile⟩

/-- Helper: a targeted row update commutes with find?, since it preserves ids. -/
theorem find?_map_comm {α : Type} (p : α → Bool) (f : α → α)
    (hp : ∀ x, p (f x) = p x) :
    ∀ l : List α, (l.map f).find? p = (l.find? p).map f := by
  intro l
  induction l with
  | nil => rfl
  | cons x xs ih =>
    by_cases h : p x
    · rw [List.map_cons, List.find?_cons_of_pos _ (by rw [hp x]; exact h),
        List.find?_cons_of_pos _ h]
      rfl
    · rw [List.map_cons, List.find?_cons_of_neg _ (by rw [hp x]; simpa using h),
        List.find?_cons_of_neg _ (by simpa using h), ih]

/-- Helper: after a targeted in-place update, find? on the target id yields the
updated row. -/
theorem find?_map_update_eq {α : Type} (gid : α → Nat) (upd : α → α)
    (hid : ∀ x, gid (upd x) = gid x) (id : Nat) (l : List α) (a : α)
    (h : l.find? (fun x => gid x == id) = some a) :
    (l.map (fun x => if gid x == id then upd x else x)).find?
      (fun x => gid x == id) = some (upd a) := by
  have hp : ∀ x, (gid (if gid x == id then upd x else x) == id) = (gid x == id) := by
    intro x
    by_cases hx : gid x == id
    · simp [hx, hid]
    · simp [hx]
  rw [find?_map_comm _ _ hp l, h]
  have ha : gid a = id := by
    have := List.find?_some h
    simpa using this
  simp [ha]

/-- Helper: a targeted in-place update leaves every row with another id as it
was, as observed through find?. -/
theorem find?_map_update_ne {α : Type} (gid : α → Nat) (upd : α → α)
    (hid : ∀ x, gid (upd x) = gid x) (id j : Nat) (hj : j ≠ id) (l : List α) :
    (l.map (fun x => if gid x == id then upd x else x)).find?
      (fun x => gid x == j) = l.find? (fun x => gid x == j) := by
  have hp : ∀ x, (gid (if gid x == id then upd x else x) == j) = (gid x == j) := by
    intro x
    by_cases hx : gid x == id
    · simp [hx, hid]
    · simp [hx]
  rw [find?_map_comm _ _ hp l]
  cases h : l.find? (fun x => gid x == j) with
  | none => rfl
  | some r =>
    have hr : (gid r == j) = true := by
      have := List.find?_some h
      simpa using this
    have hr2 : gid r ≠ id := by
      simp only [beq_iff_eq] at hr
      omega
    simp [hr2]

/-- Helper: when no row has the id, delete-by-id keeps the table as it was. -/
theorem filter_ne_of_not_found {α : Type} (gid : α → Nat) (id : Nat)
    (l : List α) (h : l.find? (fun x => gid x == id) = none) :
    l.filter (fun x => gid x != id) = l := by
  rw [List.find?_eq_none] at h
  rw [List.filter_eq_self]
  intro a ha
  have := h a ha
  simpa using this

/-- Helper: every row surviving delete-by-id has another id. -/
theorem mem_filter_ne {α : Type} (gid : α → Nat) (id : Nat) (l : List α)
    (x : α) (hx : x ∈ l.filter (fun y => gid y != id)) : gid x ≠ id := by
  have := List.of_mem_filter hx
  simpa using this

/-- Helper: edit_skill's per-row update preserves the row id. -/
theorem applySkillEdit_id (env : UploadEnv) (form : SkillForm) (s : Skill) :
    (applySkillEdit env form s).id = s.id := by
  unfold applySkillEdit
  split
  · rfl
  · split <;> rfl

/-- Helper: edit_education's per-row update preserves the row id. -/
theorem applyEducationEdit_id (env : UploadEnv) (form : EducationForm)
    (e : Education) : (applyEducationEdit env form e).id = e.id := by
  unfold applyEducationEdit
  split
  · rfl
  · split <;> rfl

/-- Helper: edit_project's per-row update preserves the row id. -/
theorem applyProjectEdit_id (env : UploadEnv) (form : ProjectForm) (p : Project) :
    (applyProjectEdit env form p).id = p.id := by
  unfold applyProjectEdit
  by_cases h : isTruthy form.image_url <;> simp only [h] <;> split <;>
    first | rfl | (split <;> rfl)

/-- Helper: edit_research's per-row update preserves the row id. -/
theorem applyResearchEdit_id (env : UploadEnv) (form : ResearchForm)
    (r : Research) : (applyResearchEdit env form r).id = r.id := by
  unfold applyResearchEdit
  split
  · rfl
  · split <;> rfl

/-- Helper: edit_blog's per-row update preserves the row id. -/
theorem applyBlogEdit_id (env : UploadEnv) (form : BlogForm) (b : Blog) :
    (applyBlogEdit env form b).id = b.id := by
  unfold applyBlogEdit
  split
  · rfl
  · split <;> rfl

/-- Helper: setRead preserves the message id. -/
theorem setRead_id (id : Nat) (m : ContactMessage) : (setRead id m).id = m.id := by
  unfold setRead
  split <;> rfl

/-- Helper: setRead is the identity on a message with another id. -/
theorem setRead_of_ne (id : Nat) (m : ContactMessage) (h : m.id ≠ id) :
    setRead id m = m := by
  unfold setRead
  simp [h]

/-- Helper: setRead is idempotent. -/
theorem setRead_idem (id : Nat) (x : ContactMessage) :
    setRead id (setRead id x) = setRead id x := by
  unfold setRead
  by_cases h : (x.id == id) = true <;> simp [h]

/-- Helper: unread count of a cons cell. -/
theorem unreadCount_cons (x : ContactMessage) (l : List ContactMessage) :
    unreadCount (x :: l) = (if x.read then 0 else 1) + unreadCount l := by
  by_cases h : x.read
  · simp [unreadCount, List.filter_cons, h]
  · simp [unreadCount, List.filter_cons, h]
    omega

/-- Helper: with unique ids, marking the found message read lowers the unread
count by one when it was unread (the count then being positive) and leaves the
count unchanged when it was already read. -/
theorem unreadCount_map_setRead (id : Nat) :
    ∀ l : List ContactMessage, (l.map (fun m => m.id)).Nodup →
      ∀ m, l.find? (fun x => x.id == id) = some m →
        unreadCount (l.map (setRead id)) =
          (if m.read then unreadCount l else unreadCount l - 1) ∧
        (m.read = false → 1 ≤ unreadCount l) := by
  intro l
  induction l with
  | nil =>
    intro _ m hm
    cases hm
  | cons x xs ih =>
    intro hnd m hm
    have hnd1 : x.id ∉ xs.map (fun m => m.id) := by
      rw [List.map_cons, List.nodup_cons] at hnd
      exact hnd.1
    have hnd2 : (xs.map (fun m => m.id)).Nodup := by
      rw [List.map_cons, List.nodup_cons] at hnd
      exact hnd.2
    by_cases hx : (x.id == id) = true
    · have hmx : m = x := by
        have hcons := @List.find?_cons_of_pos ContactMessage
          (fun y => y.id == id) x xs hx
        rw [hcons] at hm
        exact (Option.some_inj.mp hm).symm
      have hxid : x.id = id := by simpa using hx
      have hxs : xs.map (setRead id) = xs := by
        have h0 : xs.map (setRead id) = xs.map (fun y => y) :=
          List.map_congr_left (fun y hy => setRead_of_ne id y (by
            intro hc
            exact hnd1 (by
              rw [hxid, ← hc]
              exact List.mem_map_of_mem (fun m => m.id) hy)))
        simpa using h0
      have hsx : setRead id x = { x with read := true } := by
        unfold setRead
        simp [hx]
      have hcount : unreadCount (List.map (setRead id) (x :: xs)) = unreadCount xs := by
        rw [List.map_cons, hxs, hsx, unreadCount_cons]
        simp
      subst hmx
      rw [hcount, unreadCount_cons]
      cases hr : m.read
      · constructor
        · simp <;> omega
        · intro _
          simp <;> omega
      · constructor
        · simp
        · intro hc
          exact Bool.noConfusion hc
    · have hm2 : xs.find? (fun y => y.id == id) = some m := by
        have hcons := @List.find?_cons_of_neg ContactMessage
          (fun y => y.id == id) x xs (by simpa using hx)
        rw [hcons] at hm
        exact hm
      have hsx : setRead id x = x := setRead_of_ne id x (by simpa using hx)
      have hih := ih hnd2 m hm2
      have hcount : unreadCount (List.map (setRead id) (x :: xs)) =
          (if x.read then 0 else 1) + unreadCount (List.map (setRead id) xs) := by
        rw [List.map_cons, hsx, unreadCount_cons]
      rw [hcount, unreadCount_cons]
      cases hr : m.read
      · have h2 := hih.2 hr
        have h1 := hih.1
        rw [hr] at h1
        constructor
        · by_cases hxr : x.read <;> simp [hxr, h1] <;> omega
        · intro _
          by_cases hxr : x.read <;> simp [hxr] <;> omega
      · have h1 := hih.1
        rw [hr] at h1
        constructor
        · by_cases hxr : x.read <;> simp [hxr, h1]
        · intro hc
          exact Bool.noConfusion hc

/-- C1 counterexample: message 2 of the populated store exists and is already
read; the mark-read call returns unread count 1, the same as before the call,
which is not one less than the prior count. -/
theorem mark_read_already_read_not_decremented :
    (dbW.messages.find? (fun x => x.id == 2)).isSome = true ∧
    unreadCount dbW.messages = 1 ∧
    (mark_message_read dbW 2).2 = Response.jsonMessageRead true 1 ∧
    ((1 : Int) ≠ (1 : Int) - 1) := by
  refine ⟨by decide, by decide, ?_, by decide⟩
  rfl

/-- C1 (amended): for an existing message id (with unique message ids), the
unread count returned by mark_message_read is one less than the prior count
when the message was unread — the prior count being then at least one, so the
result never goes negative — and equal to the prior count when the message was
already read. -/
theorem mark_message_read_unread_count (db : DB) (id : Nat) (m : ContactMessage)
    (hnd : (db.messages.map (fun x => x.id)).Nodup)
    (hfind : db.messages.find? (fun x => x.id == id) = some m) :
    (mark_message_read db id).2 = Response.jsonMessageRead true
      (if m.read then unreadCount db.messages else unreadCount db.messages - 1) ∧
    (m.read = false → 1 ≤ unreadCount db.messages) := by
  have h := unreadCount_map_setRead id db.messages hnd m hfind
  unfold mark_message_read
  rw [hfind]
  exact ⟨by simp [h.1], h.2⟩

/-- Witness for C1 at the populated store and the unread message 1. -/
theorem mark_message_read_unread_count_witness :
    ((mark_message_read dbW 1).2 = Response.jsonMessageRead true
      (if msgUnread.read then unreadCount dbW.messages else unreadCount dbW.messages - 1) ∧
    (msgUnread.read = false → 1 ≤ unreadCount dbW.messages)) :=
  mark_message_read_unread_count dbW 1 msgUnread (by decide) (by decide)

/-- C8: mark_message_read is idempotent: whenever a call succeeds, repeating it
on the resulting store leaves the store unchanged and returns the same unread
count. -/
theorem mark_message_read_idempotent (db : DB) (id : Nat) (db2 : DB) (c : Nat)
    (ok : Bool)
    (h : mark_message_read db id = (db2, Response.jsonMessageRead ok c)) :
    mark_message_read db2 id = (db2, Response.jsonMessageRead ok c) := by
  unfold mark_message_read at h ⊢
  cases hf : db.messages.find? (fun m => m.id == id) with
  | none =>
    rw [hf] at h
    injection h with h1 h2
    exact Response.noConfusion h2
  | some m =>
    rw [hf] at h
    injection h with h1 h2
    injection h2 with hok hc
    subst h1
    subst hok
    subst hc
    have hfind2 : (db.messages.map (setRead id)).find? (fun m => m.id == id)
        = some (setRead id m) := by
      rw [find?_map_comm _ _ (fun x => by rw [setRead_id]) db.messages, hf]
      rfl
    have hMM : ((db.messages.map (setRead id)).map (setRead id))
        = db.messages.map (setRead id) := by
      rw [List.map_map]
      exact List.map_congr_left (fun x _ => setRead_idem id x)
    simp only [hfind2, hMM]

/-- Witness for C8: repeating the mark-read call for message 1 on the store it
produced changes nothing and reports the same count. -/
theorem mark_message_read_idempotent_witness :
    mark_message_read dbW1 1 = (dbW1, Response.jsonMessageRead true 0) :=
  mark_message_read_idempotent dbW 1 dbW1 0 true (by rfl)

/-- C4: for a submitted file with a nonempty filename, handle_file_upload
makes exactly one storage upload call, whose path joins the subfolder, the
fresh short random value, an underscore and the sanitized original filename,
whose bytes are the file's bytes and whose content type is the file's content
type (or the octet-stream default); it returns the bucket's public URL for
that path when the call succeeds and None when it raises. -/
theorem handle_file_upload_spec (env : UploadEnv) (f : UploadedFile)
    (subfolder : String) (hname : f.filename ≠ "") :
    ∃ req : UploadRequest,
      req.path = subfolder ++ "/" ++ env.uuidHex8 ++ "_" ++ env.secureFilename f.filename ∧
      req.content = f.content ∧
      req.contentType = f.contentType.getD "application/octet-stream" ∧
      handle_file_upload env (some f) subfolder =
        (if env.uploadOk req then some (env.publicUrl req.path) else none, [req]) := by
  refine ⟨⟨subfolder ++ "/" ++ (env.uuidHex8 ++ "_" ++ env.secureFilename f.filename),
    f.content, f.contentType.getD "application/octet-stream"⟩, by simp [String.append_assoc],
    rfl, rfl, ?_⟩
  by_cases h : env.uploadOk ⟨subfolder ++ "/" ++ (env.uuidHex8 ++ "_" ++ env.secureFilename f.filename),
      f.content, f.contentType.getD "application/octet-stream"⟩ <;>
    simp [handle_file_upload, hname, h]

/-- Witness for C4 at a concrete file and a concrete environment. -/
theorem handle_file_upload_spec_witness :
    ∃ req : UploadRequest,
      req.path = "skills" ++ "/" ++ envOk.uuidHex8 ++ "_" ++ envOk.secureFilename pngFile.filename ∧
      req.content = pngFile.content ∧
      req.contentType = pngFile.contentType.getD "application/octet-stream" ∧
      handle_file_upload envOk (some pngFile) "skills" =
        (if envOk.uploadOk req then some (envOk.publicUrl req.path) else none, [req]) :=
  handle_file_upload_spec envOk pngFile "skills" (by decide)

/-- C10: a missing file object or an empty filename makes handle_file_upload
return None without attempting any storage upload call, and a calling handler
(edit_skill) whose upload result is None performs no URL assignment, leaving
the stored image_url exactly as it was — the same treatment a failed upload
receives. -/
theorem missing_file_like_failed_upload (env : UploadEnv) (subfolder : String)
    (f : UploadedFile) (hf : f.filename = "")
    (db : DB) (id : Nat) (form : SkillForm) (s : Skill)
    (hfind : db.skills.find? (fun x => x.id == id) = some s)
    (hup : (handle_file_upload env form.image_file "skills").1 = none) :
    handle_file_upload env none subfolder = (none, []) ∧
    handle_file_upload env (some f) subfolder = (none, []) ∧
    (edit_skill env db id form).1.skills.find? (fun x => x.id == id) =
      some { s with name := form.name, percentage := form.percentage } ∧
    ({ s with name := form.name, percentage := form.percentage } : Skill).image_url
      = s.image_url := by
  refine ⟨rfl, by simp [handle_file_upload, hf], ?_, rfl⟩
  have happ : applySkillEdit env form s =
      { s with name := form.name, percentage := form.percentage } := by
    unfold applySkillEdit
    cases hif : form.image_file with
    | none => rfl
    | some f2 =>
      rw [hif] at hup
      simp only [hup]
  have hmap := find?_map_update_eq (fun x => x.id) (applySkillEdit env form)
    (applySkillEdit_id env form) id db.skills s hfind
  unfold edit_skill
  rw [hfind]
  simpa [happ] using hmap

/-- Witness for C10: an empty-filename file on a working storage environment,
and an edit of skill 1 whose file input was left empty. -/
theorem missing_file_like_failed_upload_witness :
    handle_file_upload envOk none "others" = (none, []) ∧
    handle_file_upload envOk (some emptyFile) "others" = (none, []) ∧
    (edit_skill envOk dbW 1 sformEmptyFile).1.skills.find? (fun x => x.id == 1) =
      some { skillW1 with name := sformEmptyFile.name, percentage := sformEmptyFile.percentage } ∧
    ({ skillW1 with name := sformEmptyFile.name, percentage := sformEmptyFile.percentage } : Skill).image_url
      = skillW1.image_url :=
  missing_file_like_failed_upload envOk "others" emptyFile (by decide)
    dbW 1 sformEmptyFile skillW1 (by decide) (by decide)

/-- C3 counterexample: deleting a skill id that does not exist leaves the
store unchanged but answers with a redirect — not with a not-found response,
contrary to the claim that both edit and delete return not-found. -/
theorem delete_skill_missing_id_not_notfound :
    emptyDB.skills.find? (fun s => s.id == 1) = none ∧
    delete_skill emptyDB 1 = (emptyDB, Response.redirect "skills") ∧
    (delete_skill emptyDB 1).2 ≠ Response.notFound := by
  refine ⟨rfl, rfl, ?_⟩
  intro h
  exact Response.noConfusion h

/-- C3 (amended): for an id carried by no record, every edit handler returns a
not-found response and leaves the store unchanged, while every delete handler
leaves the store unchanged but returns a redirect (success), not not-found. -/
theorem missing_id_edit_delete (env : UploadEnv) (db : DB) (id : Nat)
    (sform : SkillForm) (eform : EducationForm) (xform : ExperienceForm)
    (pform : ProjectForm) (rform : ResearchForm) (aform : AchievementForm)
    (bform : BlogForm)
    (hs : db.skills.find? (fun x => x.id == id) = none)
    (hed : db.education.find? (fun x => x.id == id) = none)
    (hex : db.experience.find? (fun x => x.id == id) = none)
    (hpr : db.projects.find? (fun x => x.id == id) = none)
    (hre : db.research.find? (fun x => x.id == id) = none)
    (hac : db.achievements.find? (fun x => x.id == id) = none)
    (hbl : db.blogs.find? (fun x => x.id == id) = none) :
    edit_skill env db id sform = (db, Response.notFound) ∧
    delete_skill db id = (db, Response.redirect "skills") ∧
    edit_education env db id eform = (db, Response.notFound) ∧
    delete_education db id = (db, Response.redirect "education") ∧
    edit_experience db id xform = (db, Response.notFound) ∧
    delete_experience db id = (db, Response.redirect "experience") ∧
    edit_project env db id pform = (db, Response.notFound) ∧
    delete_project db id = (db, Response.redirect "projects") ∧
    edit_research env db id rform = (db, Response.notFound) ∧
    delete_research db id = (db, Response.redirect "research") ∧
    edit_achievement db id aform = (db, Response.notFound) ∧
    delete_achievement db id = (db, Response.redirect "achievements") ∧
    edit_blog env db id bform = (db, Response.notFound) ∧
    delete_blog db id = (db, Response.redirect "blog") := by
  refine ⟨?_, ?_, ?_, ?_, ?_, ?_, ?_, ?_, ?_, ?_, ?_, ?_, ?_, ?_⟩
  · unfold edit_skill
    rw [hs]
  · unfold delete_skill
    rw [filter_ne_of_not_found (fun x => x.id) id db.skills hs]
  · unfold edit_education
    rw [hed]
  · unfold delete_education
    rw [filter_ne_of_not_found (fun x => x.id) id db.education hed]
  · unfold edit_experience
    rw [hex]
  · unfold delete_experience
    rw [filter_ne_of_not_found (fun x => x.id) id db.experience hex]
  · unfold edit_project
    rw [hpr]
  · unfold delete_project
    rw [filter_ne_of_not_found (fun x => x.id) id db.projects hpr]
  · unfold edit_research
    rw [hre]
  · unfold delete_research
    rw [filter_ne_of_not_found (fun x => x.id) id db.research hre]
  · unfold edit_achievement
    rw [hac]
  · unfold delete_achievement
    rw [filter_ne_of_not_found (fun x => x.id) id db.achievements hac]
  · unfold edit_blog
    rw [hbl]
  · unfold delete_blog
    rw [filter_ne_of_not_found (fun x => x.id) id db.blogs hbl]

/-- Witness for C3 at the empty store and id 1. -/
theorem missing_id_edit_delete_witness :
    edit_skill envOk emptyDB 1 sformW = (emptyDB, Response.notFound) ∧
    delete_skill emptyDB 1 = (emptyDB, Response.redirect "skills") ∧
    edit_education envOk emptyDB 1 eformW = (emptyDB, Response.notFound) ∧
    delete_education emptyDB 1 = (emptyDB, Response.redirect "education") ∧
    edit_experience emptyDB 1 xformW = (emptyDB, Response.notFound) ∧
    delete_experience emptyDB 1 = (emptyDB, Response.redirect "experience") ∧
    edit_project envOk emptyDB 1 pformW = (emptyDB, Response.notFound) ∧
    delete_project emptyDB 1 = (emptyDB, Response.redirect "projects") ∧
    edit_research envOk emptyDB 1 rformW = (emptyDB, Response.notFound) ∧
    delete_research emptyDB 1 = (emptyDB, Response.redirect "research") ∧
    edit_achievement emptyDB 1 aformW = (emptyDB, Response.notFound) ∧
    delete_achievement emptyDB 1 = (emptyDB, Response.redirect "achievements") ∧
    edit_blog envOk emptyDB 1 bformW = (emptyDB, Response.notFound) ∧
    delete_blog emptyDB 1 = (emptyDB, Response.redirect "blog") :=
  missing_id_edit_delete envOk emptyDB 1 sformW eformW xformW pformW rformW
    aformW bformW rfl rfl rfl rfl rfl rfl rfl

/-- Helper: serializations carrying the row id omit a deleted id. -/
theorem to_dict_map_omits {α : Type} (gid : α → Nat) (td : α → Json) (id : Nat)
    (htd : ∀ x, jsonObjId (td x) = some (gid x))
    (l : List α) (hl : ∀ x ∈ l, gid x ≠ id) :
    ∀ j ∈ l.map td, jsonObjId j ≠ some id := by
  intro j hj
  obtain ⟨x, hx, rfl⟩ := List.mem_map.mp hj
  rw [htd x]
  intro hc
  exact hl x hx (Option.some_inj.mp hc)

/-- Helper: the serialized id of a Skill row. -/
theorem skill_to_dict_id (s : Skill) : jsonObjId (Skill.to_dict s) = some s.id := rfl

/-- Helper: the serialized id of an Education row. -/
theorem education_to_dict_id (e : Education) :
    jsonObjId (Education.to_dict e) = some e.id := rfl

/-- Helper: the serialized id of an Experience row. -/
theorem experience_to_dict_id (e : Experience) :
    jsonObjId (Experience.to_dict e) = some e.id := rfl

/-- Helper: the serialized id of a Project row. -/
theorem project_to_dict_id (p : Project) :
    jsonObjId (Project.to_dict p) = some p.id := rfl

/-- Helper: the serialized id of a Research row. -/
theorem research_to_dict_id (r : Research) :
    jsonObjId (Research.to_dict r) = some r.id := rfl

/-- Helper: the serialized id of an Achievement row. -/
theorem achievement_to_dict_id (a : Achievement) :
    jsonObjId (Achievement.to_dict a) = some a.id := rfl

/-- Helper: the serialized id of a Blog row. -/
theorem blog_to_dict_id (b : Blog) : jsonObjId (Blog.to_dict b) = some b.id := rfl

/-- C6: for every entity kind, after deleting an existing id no row with that
id remains, and the corresponding public GET serializes the remaining rows —
a list containing no object whose id field is the deleted id. -/
theorem delete_removes_and_get_omits (db : DB) (id : Nat)
    (hs : ∃ s ∈ db.skills, s.id = id)
    (hed : ∃ e ∈ db.education, e.id = id)
    (hex : ∃ e ∈ db.experience, e.id = id)
    (hpr : ∃ p ∈ db.projects, p.id = id)
    (hre : ∃ r ∈ db.research, r.id = id)
    (hac : ∃ a ∈ db.achievements, a.id = id)
    (hbl : ∃ b ∈ db.blogs, b.id = id) :
    ((∀ s ∈ (delete_skill db id).1.skills, s.id ≠ id) ∧
      (get_skills (delete_skill db id).1).2 =
        Response.json (Json.arr ((delete_skill db id).1.skills.map Skill.to_dict)) ∧
      (∀ j ∈ (delete_skill db id).1.skills.map Skill.to_dict, jsonObjId j ≠ some id)) ∧
    ((∀ e ∈ (delete_education db id).1.education, e.id ≠ id) ∧
      (get_education (delete_education db id).1).2 =
        Response.json (Json.arr ((delete_education db id).1.education.map Education.to_dict)) ∧
      (∀ j ∈ (delete_education db id).1.education.map Education.to_dict, jsonObjId j ≠ some id)) ∧
    ((∀ e ∈ (delete_experience db id).1.experience, e.id ≠ id) ∧
      (get_experience (delete_experience db id).1).2 =
        Response.json (Json.arr ((delete_experience db id).1.experience.map Experience.to_dict)) ∧
      (∀ j ∈ (delete_experience db id).1.experience.map Experience.to_dict, jsonObjId j ≠ some id)) ∧
    ((∀ p ∈ (delete_project db id).1.projects, p.id ≠ id) ∧
      (get_projects (delete_project db id).1).2 =
        Response.json (Json.arr ((delete_project db id).1.projects.map Project.to_dict)) ∧
      (∀ j ∈ (delete_project db id).1.projects.map Project.to_dict, jsonObjId j ≠ some id)) ∧
    ((∀ r ∈ (delete_research db id).1.research, r.id ≠ id) ∧
      (get_research (delete_research db id).1).2 =
        Response.json (Json.arr ((delete_research db id).1.research.map Research.to_dict)) ∧
      (∀ j ∈ (delete_research db id).1.research.map Research.to_dict, jsonObjId j ≠ some id)) ∧
    ((∀ a ∈ (delete_achievement db id).1.achievements, a.id ≠ id) ∧
      (get_achievements (delete_achievement db id).1).2 =
        Response.json (Json.arr ((delete_achievement db id).1.achievements.map Achievement.to_dict)) ∧
      (∀ j ∈ (delete_achievement db id).1.achievements.map Achievement.to_dict, jsonObjId j ≠ some id)) ∧
    ((∀ b ∈ (delete_blog db id).1.blogs, b.id ≠ id) ∧
      (get_blogs (delete_blog db id).1).2 =
        Response.json (Json.arr ((delete_blog db id).1.blogs.map Blog.to_dict)) ∧
      (∀ j ∈ (delete_blog db id).1.blogs.map Blog.to_dict, jsonObjId j ≠ some id)) := by
  have Hs : ∀ s ∈ (delete_skill db id).1.skills, s.id ≠ id := fun s h =>
    mem_filter_ne (fun x => x.id) id db.skills s
      (show s ∈ List.filter (fun y => y.id != id) db.skills from h)
  have Hed : ∀ e ∈ (delete_education db id).1.education, e.id ≠ id := fun e h =>
    mem_filter_ne (fun x => x.id) id db.education e
      (show e ∈ List.filter (fun y => y.id != id) db.education from h)
  have Hex : ∀ e ∈ (delete_experience db id).1.experience, e.id ≠ id := fun e h =>
    mem_filter_ne (fun x => x.id) id db.experience e
      (show e ∈ List.filter (fun y => y.id != id) db.experience from h)
  have Hpr : ∀ q ∈ (delete_project db id).1.projects, q.id ≠ id := fun q h =>
    mem_filter_ne (fun x => x.id) id db.projects q
      (show q ∈ List.filter (fun y => y.id != id) db.projects from h)
  have Hre : ∀ r ∈ (delete_research db id).1.research, r.id ≠ id := fun r h =>
    mem_filter_ne (fun x => x.id) id db.research r
      (show r ∈ List.filter (fun y => y.id != id) db.research from h)
  have Hac : ∀ a ∈ (delete_achievement db id).1.achievements, a.id ≠ id := fun a h =>
    mem_filter_ne (fun x => x.id) id db.achievements a
      (show a ∈ List.filter (fun y => y.id != id) db.achievements from h)
  have Hbl : ∀ b ∈ (delete_blog db id).1.blogs, b.id ≠ id := fun b h =>
    mem_filter_ne (fun x => x.id) id db.blogs b
      (show b ∈ List.filter (fun y => y.id != id) db.blogs from h)
  exact ⟨⟨Hs, rfl, to_dict_map_omits (fun x => x.id) Skill.to_dict id
        skill_to_dict_id _ Hs⟩,
    ⟨Hed, rfl, to_dict_map_omits (fun x => x.id) Education.to_dict id
        education_to_dict_id _ Hed⟩,
    ⟨Hex, rfl, to_dict_map_omits (fun x => x.id) Experience.to_dict id
        experience_to_dict_id _ Hex⟩,
    ⟨Hpr, rfl, to_dict_map_omits (fun x => x.id) Project.to_dict id
        project_to_dict_id _ Hpr⟩,
    ⟨Hre, rfl, to_dict_map_omits (fun x => x.id) Research.to_dict id
        research_to_dict_id _ Hre⟩,
    ⟨Hac, rfl, to_dict_map_omits (fun x => x.id) Achievement.to_dict id
        achievement_to_dict_id _ Hac⟩,
    ⟨Hbl, rfl, to_dict_map_omits (fun x => x.id) Blog.to_dict id
        blog_to_dict_id _ Hbl⟩⟩

/-- Witness for C6 at the populated store and id 1. -/
theorem delete_removes_and_get_omits_witness :
    ((∀ s ∈ (delete_skill dbW 1).1.skills, s.id ≠ 1) ∧
      (get_skills (delete_skill dbW 1).1).2 =
        Response.json (Json.arr ((delete_skill dbW 1).1.skills.map Skill.to_dict)) ∧
      (∀ j ∈ (delete_skill dbW 1).1.skills.map Skill.to_dict, jsonObjId j ≠ some 1)) ∧
    ((∀ e ∈ (delete_education dbW 1).1.education, e.id ≠ 1) ∧
      (get_education (delete_education dbW 1).1).2 =
        Response.json (Json.arr ((delete_education dbW 1).1.education.map Education.to_dict)) ∧
      (∀ j ∈ (delete_education dbW 1).1.education.map Education.to_dict, jsonObjId j ≠ some 1)) ∧
    ((∀ e ∈ (delete_experience dbW 1).1.experience, e.id ≠ 1) ∧
      (get_experience (delete_experience dbW 1).1).2 =
        Response.json (Json.arr ((delete_experience dbW 1).1.experience.map Experience.to_dict)) ∧
      (∀ j ∈ (delete_experience dbW 1).1.experience.map Experience.to_dict, jsonObjId j ≠ some 1)) ∧
    ((∀ p ∈ (delete_project dbW 1).1.projects, p.id ≠ 1) ∧
      (get_projects (delete_project dbW 1).1).2 =
        Response.json (Json.arr ((delete_project dbW 1).1.projects.map Project.to_dict)) ∧
      (∀ j ∈ (delete_project dbW 1).1.projects.map Project.to_dict, jsonObjId j ≠ some 1)) ∧
    ((∀ r ∈ (delete_research dbW 1).1.research, r.id ≠ 1) ∧
      (get_research (delete_research dbW 1).1).2 =
        Response.json (Json.arr ((delete_research dbW 1).1.research.map Research.to_dict)) ∧
      (∀ j ∈ (delete_research dbW 1).1.research.map Research.to_dict, jsonObjId j ≠ some 1)) ∧
    ((∀ a ∈ (delete_achievement dbW 1).1.achievements, a.id ≠ 1) ∧
      (get_achievements (delete_achievement dbW 1).1).2 =
        Response.json (Json.arr ((delete_achievement dbW 1).1.achievements.map Achievement.to_dict)) ∧
      (∀ j ∈ (delete_achievement dbW 1).1.achievements.map Achievement.to_dict, jsonObjId j ≠ some 1)) ∧
    ((∀ b ∈ (delete_blog dbW 1).1.blogs, b.id ≠ 1) ∧
      (get_blogs (delete_blog dbW 1).1).2 =
        Response.json (Json.arr ((delete_blog dbW 1).1.blogs.map Blog.to_dict)) ∧
      (∀ j ∈ (delete_blog dbW 1).1.blogs.map Blog.to_dict, jsonObjId j ≠ some 1)) :=
  delete_removes_and_get_omits dbW 1 (by decide) (by decide) (by decide)
    (by decide) (by decide) (by decide) (by decide)

/-- C7: every public GET endpoint is read-only: it leaves the store unchanged
and returns the JSON serialization of the stored content. -/
theorem public_get_endpoints_read_only (db : DB) :
    (get_about db).1 = db ∧
    (get_about db).2 = Response.json (match db.abouts with
      | [] => Json.obj []
      | a :: _ => About.to_dict a) ∧
    (get_skills db).1 = db ∧
    (get_skills db).2 = Response.json (Json.arr (db.skills.map Skill.to_dict)) ∧
    (get_education db).1 = db ∧
    (get_education db).2 = Response.json (Json.arr (db.education.map Education.to_dict)) ∧
    (get_experience db).1 = db ∧
    (get_experience db).2 = Response.json (Json.arr (db.experience.map Experience.to_dict)) ∧
    (get_projects db).1 = db ∧
    (get_projects db).2 = Response.json (Json.arr (db.projects.map Project.to_dict)) ∧
    (get_research db).1 = db ∧
    (get_research db).2 = Response.json (Json.arr (db.research.map Research.to_dict)) ∧
    (get_achievements db).1 = db ∧
    (get_achievements db).2 = Response.json (Json.arr (db.achievements.map Achievement.to_dict)) ∧
    (get_blogs db).1 = db ∧
    (get_blogs db).2 = Response.json (Json.arr (db.blogs.map Blog.to_dict)) := by
  refine ⟨?_, ?_, rfl, rfl, rfl, rfl, rfl, rfl, rfl, rfl, rfl, rfl, rfl, rfl, rfl, rfl⟩
  · unfold get_about
    cases hab : db.abouts <;> rfl
  · unfold get_about
    cases hab : db.abouts <;> rfl

/-- C9: update_about preserves the About singleton: starting from at most one
About row it ends with exactly one — the first row mutated in place when one
existed, a fresh row created exactly when none did, and never a second row. -/
theorem update_about_singleton_preserved (env : UploadEnv) (db : DB)
    (form : AboutForm) (h : db.abouts.length ≤ 1) :
    (update_about env db form).1.abouts.length = 1 ∧
    (update_about env db form).1.abouts.head? =
      some (applyAboutForm env form (db.abouts.headD newAbout)) ∧
    (update_about env db form).1.abouts.tail = db.abouts.tail := by
  unfold update_about
  cases hab : db.abouts with
  | nil => exact ⟨rfl, rfl, rfl⟩
  | cons a rest =>
    have hrest : rest = [] := by
      rw [hab, List.length_cons] at h
      have h0 : rest.length = 0 := by omega
      exact List.length_eq_zero.mp h0
    subst hrest
    exact ⟨rfl, rfl, rfl⟩

/-- Witness for C9 at the populated store (one About row) and a concrete form. -/
theorem update_about_singleton_preserved_witness :
    (update_about envOk dbW aboutFormW).1.abouts.length = 1 ∧
    (update_about envOk dbW aboutFormW).1.abouts.head? =
      some (applyAboutForm envOk aboutFormW (dbW.abouts.headD newAbout)) ∧
    (update_about envOk dbW aboutFormW).1.abouts.tail = dbW.abouts.tail :=
  update_about_singleton_preserved envOk dbW aboutFormW (by decide)

/-- Helper: when every storage call raises, the upload helper returns None. -/
theorem handle_file_upload_fails (env : UploadEnv)
    (henv : ∀ r, env.uploadOk r = false) (file : Option UploadedFile)
    (subfolder : String) : (handle_file_upload env file subfolder).1 = none := by
  unfold handle_file_upload
  cases file with
  | none => rfl
  | some f =>
    by_cases hf : f.filename = ""
    · simp [hf]
    · simp [hf, henv]

/-- Helper: with a failing upload, edit_skill's row update sets exactly name
and percentage. -/
theorem applySkillEdit_fail (env : UploadEnv)
    (henv : ∀ r, env.uploadOk r = false) (form : SkillForm) (s : Skill) :
    applySkillEdit env form s =
      { s with name := form.name, percentage := form.percentage } := by
  unfold applySkillEdit
  cases hif : form.image_file with
  | none => rfl
  | some f => simp [handle_file_upload_fails env henv]

/-- Helper: the resume stage leaves the profile image fields untouched. -/
theorem aboutSetResume_other (env : UploadEnv) (form : AboutForm) (a : About) :
    (aboutSetResume env form a).profile_image = a.profile_image ∧
    (aboutSetResume env form a).mini_profile_image = a.mini_profile_image := by
  unfold aboutSetResume
  constructor <;> ((split <;> split <;> try split) <;> rfl)

/-- Helper: the profile stage leaves resume_link and the mini image untouched. -/
theorem aboutSetProfile_other (env : UploadEnv) (form : AboutForm) (a : About) :
    (aboutSetProfile env form a).resume_link = a.resume_link ∧
    (aboutSetProfile env form a).mini_profile_image = a.mini_profile_image := by
  unfold aboutSetProfile
  constructor <;> ((split <;> split <;> try split) <;> rfl)

/-- Helper: the mini stage leaves resume_link and the main image untouched. -/
theorem aboutSetMini_other (env : UploadEnv) (form : AboutForm) (a : About) :
    (aboutSetMini env form a).resume_link = a.resume_link ∧
    (aboutSetMini env form a).profile_image = a.profile_image := by
  unfold aboutSetMini
  constructor <;> ((split <;> split <;> try split) <;> rfl)

/-- Helper: with a failing upload the resume stage is governed by the text
field alone. -/
theorem aboutSetResume_fail (env : UploadEnv)
    (henv : ∀ r, env.uploadOk r = false) (form : AboutForm) (a : About) :
    (aboutSetResume env form a).resume_link =
      (if isTruthy form.resume_link then form.resume_link else a.resume_link) := by
  unfold aboutSetResume
  cases hrf : form.resume_file with
  | none => split <;> rfl
  | some f =>
    simp only [handle_file_upload_fails env henv]
    split <;> rfl

/-- Helper: with a failing upload the profile stage is governed by the text
field alone. -/
theorem aboutSetProfile_fail (env : UploadEnv)
    (henv : ∀ r, env.uploadOk r = false) (form : AboutForm) (a : About) :
    (aboutSetProfile env form a).profile_image =
      (if isTruthy form.profile_image then form.profile_image else a.profile_image) := by
  unfold aboutSetProfile
  cases hif : form.image_file with
  | none => split <;> rfl
  | some f =>
    simp only [handle_file_upload_fails env henv]
    split <;> rfl

/-- Helper: with a failing upload the mini stage is governed by the text field
alone. -/
theorem aboutSetMini_fail (env : UploadEnv)
    (henv : ∀ r, env.uploadOk r = false) (form : AboutForm) (a : About) :
    (aboutSetMini env form a).mini_profile_image =
      (if isTruthy form.mini_profile_image then form.mini_profile_image
       else a.mini_profile_image) := by
  unfold aboutSetMini
  cases hmf : form.mini_image_file with
  | none => split <;> rfl
  | some f =>
    simp only [handle_file_upload_fails env henv]
    split <;> rfl

/-- Helper: with a failing upload, update_about's URL fields are governed by
the text fields alone: overwritten when the text field is truthy, otherwise
kept. -/
theorem applyAboutForm_fail (env : UploadEnv)
    (henv : ∀ r, env.uploadOk r = false) (form : AboutForm) (a : About) :
    (applyAboutForm env form a).resume_link =
      (if isTruthy form.resume_link then form.resume_link else a.resume_link) ∧
    (applyAboutForm env form a).profile_image =
      (if isTruthy form.profile_image then form.profile_image else a.profile_image) ∧
    (applyAboutForm env form a).mini_profile_image =
      (if isTruthy form.mini_profile_image then form.mini_profile_image
       else a.mini_profile_image) := by
  unfold applyAboutForm
  refine ⟨?_, ?_, ?_⟩
  · rw [(aboutSetMini_other env form _).1, (aboutSetProfile_other env form _).1,
      aboutSetResume_fail env henv form _]
    rfl
  · rw [(aboutSetMini_other env form _).2, aboutSetProfile_fail env henv form _,
      (aboutSetResume_other env form _).1]
    rfl
  · rw [aboutSetMini_fail env henv form _, (aboutSetProfile_other env form _).2,
      (aboutSetResume_other env form _).2]
    rfl

/-- Helper: with a failing upload, edit_project's image URL is governed by the
text field alone. -/
theorem applyProjectEdit_fail (env : UploadEnv)
    (henv : ∀ r, env.uploadOk r = false) (form : ProjectForm) (p : Project) :
    (applyProjectEdit env form p).image_url =
      (if isTruthy form.image_url then form.image_url else p.image_url) := by
  unfold applyProjectEdit
  cases hif : form.image_file with
  | none => split <;> rfl
  | some f =>
    simp only [handle_file_upload_fails env henv]
    split <;> rfl

/-- Helper: with a failing upload, edit_research still stores the submitted
link text field. -/
theorem applyResearchEdit_fail (env : UploadEnv)
    (henv : ∀ r, env.uploadOk r = false) (form : ResearchForm) (r : Research) :
    (applyResearchEdit env form r).link = some form.link := by
  unfold applyResearchEdit
  cases hif : form.research_pdf <;>
    simp [handle_file_upload_fails env henv]

/-- Helper: with a failing upload, edit_blog keeps the stored cover image. -/
theorem applyBlogEdit_fail (env : UploadEnv)
    (henv : ∀ r, env.uploadOk r = false) (form : BlogForm) (b : Blog) :
    (applyBlogEdit env form b).cover_image = b.cover_image := by
  unfold applyBlogEdit
  cases hif : form.cover_file <;>
    simp [handle_file_upload_fails env henv]

/-- C2 counterexample: editing research 1 with a failing upload stores the
submitted link text field, so the stored URL does not keep the value it had
before the request. -/
theorem edit_research_failed_upload_link_overwritten :
    (handle_file_upload envFail (some pdfFile) "research").1 = none ∧
    (edit_research envFail dbW 1 rformW).1.research.find? (fun r => r.id == 1) =
      some ⟨1, "Paper", "About X", some "https://new-link", "2024"⟩ ∧
    resW.link = some "https://cdn.example/research/old.pdf" ∧
    some "https://new-link" ≠ resW.link := by decide

/-- C2 (amended): when the upload helper fails the upload step assigns
nothing, so each URL field holds what it held just before the upload step:
its pre-request stored value for edit_skill and edit_blog, while update_about
and edit_project overwrite it first when a nonempty URL text field was
submitted, and edit_research always overwrites the link from its mandatory
text field. -/
theorem upload_failure_url_fields (env : UploadEnv)
    (henv : ∀ r, env.uploadOk r = false)
    (db : DB)
    (aform : AboutForm) (a : About) (rest : List About)
    (ha : db.abouts = a :: rest)
    (sid : Nat) (sform : SkillForm) (s : Skill)
    (hsf : db.skills.find? (fun x => x.id == sid) = some s)
    (pid : Nat) (pform : ProjectForm) (p : Project)
    (hpf : db.projects.find? (fun x => x.id == pid) = some p)
    (rid : Nat) (rform : ResearchForm) (r : Research)
    (hrf : db.research.find? (fun x => x.id == rid) = some r)
    (bid : Nat) (bform : BlogForm) (b : Blog)
    (hbf : db.blogs.find? (fun x => x.id == bid) = some b) :
    (update_about env db aform).1.abouts = applyAboutForm env aform a :: rest ∧
    (applyAboutForm env aform a).resume_link =
      (if isTruthy aform.resume_link then aform.resume_link else a.resume_link) ∧
    (applyAboutForm env aform a).profile_image =
      (if isTruthy aform.profile_image then aform.profile_image else a.profile_image) ∧
    (edit_skill env db sid sform).1.skills.find? (fun x => x.id == sid) =
      some (applySkillEdit env sform s) ∧
    (applySkillEdit env sform s).image_url = s.image_url ∧
    (edit_project env db pid pform).1.projects.find? (fun x => x.id == pid) =
      some (applyProjectEdit env pform p) ∧
    (applyProjectEdit env pform p).image_url =
      (if isTruthy pform.image_url then pform.image_url else p.image_url) ∧
    (edit_research env db rid rform).1.research.find? (fun x => x.id == rid) =
      some (applyResearchEdit env rform r) ∧
    (applyResearchEdit env rform r).link = some rform.link ∧
    (edit_blog env db bid bform).1.blogs.find? (fun x => x.id == bid) =
      some (applyBlogEdit env bform b) ∧
    (applyBlogEdit env bform b).cover_image = b.cover_image := by
  refine ⟨?_, (applyAboutForm_fail env henv aform a).1,
    (applyAboutForm_fail env henv aform a).2.1, ?_,
    by rw [applySkillEdit_fail env henv sform s], ?_,
    applyProjectEdit_fail env henv pform p, ?_,
    applyResearchEdit_fail env henv rform r, ?_,
    applyBlogEdit_fail env henv bform b⟩
  · unfold update_about
    rw [ha]
  · unfold edit_skill
    rw [hsf]
    exact find?_map_update_eq (fun x => x.id) (applySkillEdit env sform)
      (applySkillEdit_id env sform) sid db.skills s hsf
  · unfold edit_project
    rw [hpf]
    exact find?_map_update_eq (fun x => x.id) (applyProjectEdit env pform)
      (applyProjectEdit_id env pform) pid db.projects p hpf
  · unfold edit_research
    rw [hrf]
    exact find?_map_update_eq (fun x => x.id) (applyResearchEdit env rform)
      (applyResearchEdit_id env rform) rid db.research r hrf
  · unfold edit_blog
    rw [hbf]
    exact find?_map_update_eq (fun x => x.id) (applyBlogEdit env bform)
      (applyBlogEdit_id env bform) bid db.blogs b hbf

/-- Witness for C2 at the populated store, a failing environment and concrete
forms for each handler. -/
theorem upload_failure_url_fields_witness :
    (update_about envFail dbW aboutFormW).1.abouts =
      applyAboutForm envFail aboutFormW aboutW :: [] ∧
    (applyAboutForm envFail aboutFormW aboutW).resume_link =
      (if isTruthy aboutFormW.resume_link then aboutFormW.resume_link
       else aboutW.resume_link) ∧
    (applyAboutForm envFail aboutFormW aboutW).profile_image =
      (if isTruthy aboutFormW.profile_image then aboutFormW.profile_image
       else aboutW.profile_image) ∧
    (edit_skill envFail dbW 1 sformW).1.skills.find? (fun x => x.id == 1) =
      some (applySkillEdit envFail sformW skillW1) ∧
    (applySkillEdit envFail sformW skillW1).image_url = skillW1.image_url ∧
    (edit_project envFail dbW 1 pformW).1.projects.find? (fun x => x.id == 1) =
      some (applyProjectEdit envFail pformW projW1) ∧
    (applyProjectEdit envFail pformW projW1).image_url =
      (if isTruthy pformW.image_url then pformW.image_url else projW1.image_url) ∧
    (edit_research envFail dbW 1 rformW).1.research.find? (fun x => x.id == 1) =
      some (applyResearchEdit envFail rformW resW) ∧
    (applyResearchEdit envFail rformW resW).link = some rformW.link ∧
    (edit_blog envFail dbW 1 bformW).1.blogs.find? (fun x => x.id == 1) =
      some (applyBlogEdit envFail bformW blogW) ∧
    (applyBlogEdit envFail bformW blogW).cover_image = blogW.cover_image :=
  upload_failure_url_fields envFail (fun _ => rfl) dbW aboutFormW aboutW []
    rfl 1 sformW skillW1 rfl 1 pformW projW1 rfl 1 rformW resW rfl
    1 bformW blogW rfl

/-- Helper: edit_skill on an existing id rewrites only the skills table, by a
targeted in-place row update. -/
theorem edit_skill_found (env : UploadEnv) (db : DB) (id : Nat)
    (form : SkillForm) (s : Skill)
    (hsf : db.skills.find? (fun x => x.id == id) = some s) :
    edit_skill env db id form =
      ({ db with skills := db.skills.map (fun x =>
          if x.id == id then applySkillEdit env form x else x) },
       Response.redirect "skills") := by
  unfold edit_skill
  rw [hsf]

/-- Helper: edit_project on an existing id rewrites only the projects table,
by a targeted in-place row update. -/
theorem edit_project_found (env : UploadEnv) (db : DB) (id : Nat)
    (form : ProjectForm) (p : Project)
    (hpf : db.projects.find? (fun x => x.id == id) = some p) :
    edit_project env db id form =
      ({ db with projects := db.projects.map (fun x =>
          if x.id == id then applyProjectEdit env form x else x) },
       Response.redirect "projects") := by
  unfold edit_project
  rw [hpf]

/-- C5 counterexample: editing project 1 with no uploaded file but a nonempty
image_url text field changes the stored image URL, refuting the claim that an
edit with no uploaded file leaves the stored image URL unchanged. -/
theorem edit_project_no_file_image_url_changed :
    pformText.image_file = none ∧
    projW1.image_url = some "https://cdn.example/projects/old.png" ∧
    (edit_project envOk dbW 1 pformText).1.projects.find? (fun x => x.id == 1) =
      some ⟨1, "Site", "web", some "https://new.png", "https://site"⟩ ∧
    some "https://new.png" ≠ projW1.image_url := by decide


/-- Helper: edit_education on an existing id rewrites only the education
table, by a targeted in-place row update. -/
theorem edit_education_found (env : UploadEnv) (db : DB) (id : Nat)
    (form : EducationForm) (e : Education)
    (hef : db.education.find? (fun x => x.id == id) = some e) :
    edit_education env db id form =
      ({ db with education := db.education.map (fun x =>
          if x.id == id then applyEducationEdit env form x else x) },
       Response.redirect "education") := by
  unfold edit_education
  rw [hef]

/-- Helper: edit_experience on an existing id rewrites only the experience
table, by a targeted in-place row update. -/
theorem edit_experience_found (db : DB) (id : Nat)
    (form : ExperienceForm) (e : Experience)
    (hef : db.experience.find? (fun x => x.id == id) = some e) :
    edit_experience db id form =
      ({ db with experience := db.experience.map (fun x =>
          if x.id == id then applyExperienceEdit form x else x) },
       Response.redirect "experience") := by
  unfold edit_experience
  rw [hef]

/-- Helper: edit_research on an existing id rewrites only the research table,
by a targeted in-place row update. -/
theorem edit_research_found (env : UploadEnv) (db : DB) (id : Nat)
    (form : ResearchForm) (r : Research)
    (hrf : db.research.find? (fun x => x.id == id) = some r) :
    edit_research env db id form =
      ({ db with research := db.research.map (fun x =>
          if x.id == id then applyResearchEdit env form x else x) },
       Response.redirect "research") := by
  unfold edit_research
  rw [hrf]

/-- Helper: edit_achievement on an existing id rewrites only the achievements
table, by a targeted in-place row update. -/
theorem edit_achievement_found (db : DB) (id : Nat)
    (form : AchievementForm) (a : Achievement)
    (haf : db.achievements.find? (fun x => x.id == id) = some a) :
    edit_achievement db id form =
      ({ db with achievements := db.achievements.map (fun x =>
          if x.id == id then applyAchievementEdit form x else x) },
       Response.redirect "achievements") := by
  unfold edit_achievement
  rw [haf]

/-- Helper: edit_blog on an existing id rewrites only the blogs table, by a
targeted in-place row update. -/
theorem edit_blog_found (env : UploadEnv) (db : DB) (id : Nat)
    (form : BlogForm) (b : Blog)
    (hbf : db.blogs.find? (fun x => x.id == id) = some b) :
    edit_blog env db id form =
      ({ db with blogs := db.blogs.map (fun x =>
          if x.id == id then applyBlogEdit env form x else x) },
       Response.redirect "blog") := by
  unfold edit_blog
  rw [hbf]

/-- Helper: edit_experience's per-row update preserves the row id. -/
theorem applyExperienceEdit_id (form : ExperienceForm) (e : Experience) :
    (applyExperienceEdit form e).id = e.id := rfl

/-- Helper: edit_achievement's per-row update preserves the row id. -/
theorem applyAchievementEdit_id (form : AchievementForm) (a : Achievement) :
    (applyAchievementEdit form a).id = a.id := rfl

/-- Helper: for every submission, edit_skill's row update sets name and
percentage from the form and the image URL according to the upload step. -/
theorem applySkillEdit_fields (env : UploadEnv) (form : SkillForm) (s : Skill) :
    (applySkillEdit env form s).name = form.name ∧
    (applySkillEdit env form s).percentage = form.percentage ∧
    (applySkillEdit env form s).image_url =
      urlAfterUpload (uploadedUrl env form.image_file "skills") s.image_url := by
  cases hif : form.image_file with
  | none =>
    have h1 : applySkillEdit env form s =
        { s with name := form.name, percentage := form.percentage } := by
      unfold applySkillEdit
      rw [hif]
    rw [h1]
    exact ⟨rfl, rfl, rfl⟩
  | some f =>
    have h1 : applySkillEdit env form s =
        (match (handle_file_upload env (some f) "skills").1 with
         | some url => { s with
             name := form.name, percentage := form.percentage,
             image_url := some url }
         | none => { s with
             name := form.name, percentage := form.percentage }) := by
      unfold applySkillEdit
      rw [hif]
    have h2 : uploadedUrl env (some f) "skills" =
        (handle_file_upload env (some f) "skills").1 := rfl
    rw [h1, h2]
    refine ⟨?_, ?_, ?_⟩ <;>
      cases hup : (handle_file_upload env (some f) "skills").1 <;> rfl

/-- Helper: for every submission, edit_education's row update sets the four
text fields from the form and the logo URL according to the upload step. -/
theorem applyEducationEdit_fields (env : UploadEnv) (form : EducationForm)
    (e : Education) :
    (applyEducationEdit env form e).degree = form.degree ∧
    (applyEducationEdit env form e).institution = form.institution ∧
    (applyEducationEdit env form e).year_range = form.year_range ∧
    (applyEducationEdit env form e).description = form.description ∧
    (applyEducationEdit env form e).logo_url =
      urlAfterUpload (uploadedUrl env form.logo_file "education") e.logo_url := by
  cases hif : form.logo_file with
  | none =>
    have h1 : applyEducationEdit env form e =
        { e with
          degree := form.degree, institution := form.institution,
          year_range := form.year_range, description := form.description } := by
      unfold applyEducationEdit
      rw [hif]
    rw [h1]
    exact ⟨rfl, rfl, rfl, rfl, rfl⟩
  | some f =>
    have h1 : applyEducationEdit env form e =
        (match (handle_file_upload env (some f) "education").1 with
         | some url => { e with
             degree := form.degree, institution := form.institution,
             year_range := form.year_range, description := form.description,
             logo_url := some url }
         | none => { e with
             degree := form.degree, institution := form.institution,
             year_range := form.year_range, description := form.description }) := by
      unfold applyEducationEdit
      rw [hif]
    have h2 : uploadedUrl env (some f) "education" =
        (handle_file_upload env (some f) "education").1 := rfl
    rw [h1, h2]
    refine ⟨?_, ?_, ?_, ?_, ?_⟩ <;>
      cases hup : (handle_file_upload env (some f) "education").1 <;> rfl

/-- Helper: for every submission, edit_blog's row update sets the four text
fields from the form and the cover image according to the upload step. -/
theorem applyBlogEdit_fields (env : UploadEnv) (form : BlogForm) (b : Blog) :
    (applyBlogEdit env form b).title = form.title ∧
    (applyBlogEdit env form b).content = form.content ∧
    (applyBlogEdit env form b).tags = form.tags ∧
    (applyBlogEdit env form b).date = form.date ∧
    (applyBlogEdit env form b).cover_image =
      urlAfterUpload (uploadedUrl env form.cover_file "blog") b.cover_image := by
  cases hif : form.cover_file with
  | none =>
    have h1 : applyBlogEdit env form b =
        { b with
          title := form.title, content := form.content,
          tags := form.tags, date := form.date } := by
      unfold applyBlogEdit
      rw [hif]
    rw [h1]
    exact ⟨rfl, rfl, rfl, rfl, rfl⟩
  | some f =>
    have h1 : applyBlogEdit env form b =
        (match (handle_file_upload env (some f) "blog").1 with
         | some url => { b with
             title := form.title, content := form.content,
             tags := form.tags, date := form.date, cover_image := some url }
         | none => { b with
             title := form.title, content := form.content,
             tags := form.tags, date := form.date }) := by
      unfold applyBlogEdit
      rw [hif]
    have h2 : uploadedUrl env (some f) "blog" =
        (handle_file_upload env (some f) "blog").1 := rfl
    rw [h1, h2]
    refine ⟨?_, ?_, ?_, ?_, ?_⟩ <;>
      cases hup : (handle_file_upload env (some f) "blog").1 <;> rfl

/-- Helper: for every submission, edit_research's row update sets title,
publication date and description from the form and the link according to the
upload step applied over the always-assigned link text field. -/
theorem applyResearchEdit_fields (env : UploadEnv) (form : ResearchForm)
    (r : Research) :
    (applyResearchEdit env form r).title = form.title ∧
    (applyResearchEdit env form r).publication_date = form.publication_date ∧
    (applyResearchEdit env form r).description = form.description ∧
    (applyResearchEdit env form r).link =
      urlAfterUpload (uploadedUrl env form.research_pdf "research")
        (some form.link) := by
  cases hif : form.research_pdf with
  | none =>
    have h1 : applyResearchEdit env form r =
        { r with
          title := form.title, publication_date := form.publication_date,
          link := some form.link, description := form.description } := by
      unfold applyResearchEdit
      rw [hif]
    rw [h1]
    exact ⟨rfl, rfl, rfl, rfl⟩
  | some f =>
    have h1 : applyResearchEdit env form r =
        (match (handle_file_upload env (some f) "research").1 with
         | some url => { r with
             title := form.title, publication_date := form.publication_date,
             link := some url, description := form.description }
         | none => { r with
             title := form.title, publication_date := form.publication_date,
             link := some form.link, description := form.description }) := by
      unfold applyResearchEdit
      rw [hif]
    have h2 : uploadedUrl env (some f) "research" =
        (handle_file_upload env (some f) "research").1 := rfl
    rw [h1, h2]
    refine ⟨?_, ?_, ?_, ?_⟩ <;>
      cases hup : (handle_file_upload env (some f) "research").1 <;> rfl

/-- Helper: for every submission, edit_project's row update sets title,
category and project_link from the form and the image URL according to the
upload step applied over the nonempty image_url text field (otherwise the
stored value). -/
theorem applyProjectEdit_fields (env : UploadEnv) (form : ProjectForm)
    (p : Project) :
    (applyProjectEdit env form p).title = form.title ∧
    (applyProjectEdit env form p).category = form.category ∧
    (applyProjectEdit env form p).project_link = form.project_link ∧
    (applyProjectEdit env form p).image_url =
      urlAfterUpload (uploadedUrl env form.image_file "projects")
        (if isTruthy form.image_url then form.image_url else p.image_url) := by
  cases hif : form.image_file with
  | none =>
    by_cases ht : isTruthy form.image_url = true
    · have h1 : applyProjectEdit env form p =
          { p with
            title := form.title, category := form.category,
            project_link := form.project_link, image_url := form.image_url } := by
        unfold applyProjectEdit
        rw [hif]
        simp [ht]
      rw [h1]
      exact ⟨rfl, rfl, rfl, by rw [if_pos ht]; rfl⟩
    · have h1 : applyProjectEdit env form p =
          { p with
            title := form.title, category := form.category,
            project_link := form.project_link } := by
        unfold applyProjectEdit
        rw [hif]
        simp [ht]
      rw [h1]
      exact ⟨rfl, rfl, rfl, by rw [if_neg ht]; rfl⟩
  | some f =>
    have h2 : uploadedUrl env (some f) "projects" =
        (handle_file_upload env (some f) "projects").1 := rfl
    by_cases ht : isTruthy form.image_url = true
    · have h1 : applyProjectEdit env form p =
          (match (handle_file_upload env (some f) "projects").1 with
           | some url => { p with
               title := form.title, category := form.category,
               project_link := form.project_link, image_url := some url }
           | none => { p with
               title := form.title, category := form.category,
               project_link := form.project_link, image_url := form.image_url }) := by
        unfold applyProjectEdit
        rw [hif]
        simp [ht]
      rw [h1, h2, if_pos ht]
      refine ⟨?_, ?_, ?_, ?_⟩ <;>
        cases hup : (handle_file_upload env (some f) "projects").1 <;> rfl
    · have h1 : applyProjectEdit env form p =
          (match (handle_file_upload env (some f) "projects").1 with
           | some url => { p with
               title := form.title, category := form.category,
               project_link := form.project_link, image_url := some url }
           | none => { p with
               title := form.title, category := form.category,
               project_link := form.project_link }) := by
        unfold applyProjectEdit
        rw [hif]
        simp [ht]
      rw [h1, h2, if_neg ht]
      refine ⟨?_, ?_, ?_, ?_⟩ <;>
        cases hup : (handle_file_upload env (some f) "projects").1 <;> rfl

/-- Helper: for every submission, edit_experience's row update sets exactly
the four text fields from the form. -/
theorem applyExperienceEdit_fields (form : ExperienceForm) (e : Experience) :
    (applyExperienceEdit form e).role = form.role ∧
    (applyExperienceEdit form e).company = form.company ∧
    (applyExperienceEdit form e).year_range = form.year_range ∧
    (applyExperienceEdit form e).description = form.description :=
  ⟨rfl, rfl, rfl, rfl⟩

/-- Helper: for every submission, edit_achievement's row update sets exactly
the four text fields from the form. -/
theorem applyAchievementEdit_fields (form : AchievementForm) (a : Achievement) :
    (applyAchievementEdit form a).title = form.title ∧
    (applyAchievementEdit form a).description = form.description ∧
    (applyAchievementEdit form a).date = form.date ∧
    (applyAchievementEdit form a).link = form.link :=
  ⟨rfl, rfl, rfl, rfl⟩

/-- C5 (amended): for every entity kind, every existing record and every edit
submission, the edit handler overwrites exactly the fields it assigns from the
submission: the mandatory text fields are set from the form; the stored
image/link URL becomes the successful upload's URL when one is produced and
otherwise holds the value from just before the upload step — the pre-request
value for edit_skill, edit_education and edit_blog, the nonempty submitted
image_url text (otherwise the pre-request value) for edit_project, and always
the submitted mandatory link text for edit_research; and the record's id,
every other record of the table, and every other table keep their previous
values. -/
theorem edit_changes_only_submitted_fields (env : UploadEnv) (db : DB)
    (tid bid : Nat) (hne : bid ≠ tid)
    (sform : SkillForm) (s t : Skill)
    (hs : db.skills.find? (fun z => z.id == tid) = some s)
    (hs2 : db.skills.find? (fun z => z.id == bid) = some t)
    (eform : EducationForm) (ed ed2 : Education)
    (hed : db.education.find? (fun z => z.id == tid) = some ed)
    (hed2 : db.education.find? (fun z => z.id == bid) = some ed2)
    (xform : ExperienceForm) (ex ex2 : Experience)
    (hex : db.experience.find? (fun z => z.id == tid) = some ex)
    (hex2 : db.experience.find? (fun z => z.id == bid) = some ex2)
    (pform : ProjectForm) (pr pr2 : Project)
    (hpr : db.projects.find? (fun z => z.id == tid) = some pr)
    (hpr2 : db.projects.find? (fun z => z.id == bid) = some pr2)
    (rform : ResearchForm) (re re2 : Research)
    (hre : db.research.find? (fun z => z.id == tid) = some re)
    (hre2 : db.research.find? (fun z => z.id == bid) = some re2)
    (aform : AchievementForm) (ac ac2 : Achievement)
    (hac : db.achievements.find? (fun z => z.id == tid) = some ac)
    (hac2 : db.achievements.find? (fun z => z.id == bid) = some ac2)
    (bform : BlogForm) (bl bl2 : Blog)
    (hbl : db.blogs.find? (fun z => z.id == tid) = some bl)
    (hbl2 : db.blogs.find? (fun z => z.id == bid) = some bl2) :
    ((edit_skill env db tid sform).1.skills.find? (fun z => z.id == tid) =
      some (applySkillEdit env sform s) ∧
    (applySkillEdit env sform s).id = s.id ∧
    (applySkillEdit env sform s).name = sform.name ∧
    (applySkillEdit env sform s).percentage = sform.percentage ∧
    (applySkillEdit env sform s).image_url =
      urlAfterUpload (uploadedUrl env sform.image_file "skills") s.image_url ∧
    (edit_skill env db tid sform).1.skills.find? (fun z => z.id == bid) = some t ∧
    (edit_skill env db tid sform).1 =
      { db with skills := (edit_skill env db tid sform).1.skills }) ∧
    ((edit_education env db tid eform).1.education.find? (fun z => z.id == tid) =
      some (applyEducationEdit env eform ed) ∧
    (applyEducationEdit env eform ed).id = ed.id ∧
    (applyEducationEdit env eform ed).degree = eform.degree ∧
    (applyEducationEdit env eform ed).institution = eform.institution ∧
    (applyEducationEdit env eform ed).year_range = eform.year_range ∧
    (applyEducationEdit env eform ed).description = eform.description ∧
    (applyEducationEdit env eform ed).logo_url =
      urlAfterUpload (uploadedUrl env eform.logo_file "education") ed.logo_url ∧
    (edit_education env db tid eform).1.education.find? (fun z => z.id == bid) = some ed2 ∧
    (edit_education env db tid eform).1 =
      { db with education := (edit_education env db tid eform).1.education }) ∧
    ((edit_experience db tid xform).1.experience.find? (fun z => z.id == tid) =
      some (applyExperienceEdit xform ex) ∧
    (applyExperienceEdit xform ex).id = ex.id ∧
    (applyExperienceEdit xform ex).role = xform.role ∧
    (applyExperienceEdit xform ex).company = xform.company ∧
    (applyExperienceEdit xform ex).year_range = xform.year_range ∧
    (applyExperienceEdit xform ex).description = xform.description ∧
    (edit_experience db tid xform).1.experience.find? (fun z => z.id == bid) = some ex2 ∧
    (edit_experience db tid xform).1 =
      { db with experience := (edit_experience db tid xform).1.experience }) ∧
    ((edit_project env db tid pform).1.projects.find? (fun z => z.id == tid) =
      some (applyProjectEdit env pform pr) ∧
    (applyProjectEdit env pform pr).id = pr.id ∧
    (applyProjectEdit env pform pr).title = pform.title ∧
    (applyProjectEdit env pform pr).category = pform.category ∧
    (applyProjectEdit env pform pr).project_link = pform.project_link ∧
    (applyProjectEdit env pform pr).image_url =
      urlAfterUpload (uploadedUrl env pform.image_file "projects")
        (if isTruthy pform.image_url then pform.image_url else pr.image_url) ∧
    (edit_project env db tid pform).1.projects.find? (fun z => z.id == bid) = some pr2 ∧
    (edit_project env db tid pform).1 =
      { db with projects := (edit_project env db tid pform).1.projects }) ∧
    ((edit_research env db tid rform).1.research.find? (fun z => z.id == tid) =
      some (applyResearchEdit env rform re) ∧
    (applyResearchEdit env rform re).id = re.id ∧
    (applyResearchEdit env rform re).title = rform.title ∧
    (applyResearchEdit env rform re).publication_date = rform.publication_date ∧
    (applyResearchEdit env rform re).description = rform.description ∧
    (applyResearchEdit env rform re).link =
      urlAfterUpload (uploadedUrl env rform.research_pdf "research")
        (some rform.link) ∧
    (edit_research env db tid rform).1.research.find? (fun z => z.id == bid) = some re2 ∧
    (edit_research env db tid rform).1 =
      { db with research := (edit_research env db tid rform).1.research }) ∧
    ((edit_achievement db tid aform).1.achievements.find? (fun z => z.id == tid) =
      some (applyAchievementEdit aform ac) ∧
    (applyAchievementEdit aform ac).id = ac.id ∧
    (applyAchievementEdit aform ac).title = aform.title ∧
    (applyAchievementEdit aform ac).description = aform.description ∧
    (applyAchievementEdit aform ac).date = aform.date ∧
    (applyAchievementEdit aform ac).link = aform.link ∧
    (edit_achievement db tid aform).1.achievements.find? (fun z => z.id == bid) = some ac2 ∧
    (edit_achievement db tid aform).1 =
      { db with achievements := (edit_achievement db tid aform).1.achievements }) ∧
    ((edit_blog env db tid bform).1.blogs.find? (fun z => z.id == tid) =
      some (applyBlogEdit env bform bl) ∧
    (applyBlogEdit env bform bl).id = bl.id ∧
    (applyBlogEdit env bform bl).title = bform.title ∧
    (applyBlogEdit env bform bl).content = bform.content ∧
    (applyBlogEdit env bform bl).tags = bform.tags ∧
    (applyBlogEdit env bform bl).date = bform.date ∧
    (applyBlogEdit env bform bl).cover_image =
      urlAfterUpload (uploadedUrl env bform.cover_file "blog") bl.cover_image ∧
    (edit_blog env db tid bform).1.blogs.find? (fun z => z.id == bid) = some bl2 ∧
    (edit_blog env db tid bform).1 =
      { db with blogs := (edit_blog env db tid bform).1.blogs }) := by
  refine ⟨⟨?_, applySkillEdit_id env sform s,
      (applySkillEdit_fields env sform s).1,
      (applySkillEdit_fields env sform s).2.1,
      (applySkillEdit_fields env sform s).2.2, ?_, ?_⟩,
    ⟨?_, applyEducationEdit_id env eform ed,
      (applyEducationEdit_fields env eform ed).1,
      (applyEducationEdit_fields env eform ed).2.1,
      (applyEducationEdit_fields env eform ed).2.2.1,
      (applyEducationEdit_fields env eform ed).2.2.2.1,
      (applyEducationEdit_fields env eform ed).2.2.2.2, ?_, ?_⟩,
    ⟨?_, applyExperienceEdit_id xform ex,
      (applyExperienceEdit_fields xform ex).1,
      (applyExperienceEdit_fields xform ex).2.1,
      (applyExperienceEdit_fields xform ex).2.2.1,
      (applyExperienceEdit_fields xform ex).2.2.2, ?_, ?_⟩,
    ⟨?_, applyProjectEdit_id env pform pr,
      (applyProjectEdit_fields env pform pr).1,
      (applyProjectEdit_fields env pform pr).2.1,
      (applyProjectEdit_fields env pform pr).2.2.1,
      (applyProjectEdit_fields env pform pr).2.2.2, ?_, ?_⟩,
    ⟨?_, applyResearchEdit_id env rform re,
      (applyResearchEdit_fields env rform re).1,
      (applyResearchEdit_fields env rform re).2.1,
      (applyResearchEdit_fields env rform re).2.2.1,
      (applyResearchEdit_fields env rform re).2.2.2, ?_, ?_⟩,
    ⟨?_, applyAchievementEdit_id aform ac,
      (applyAchievementEdit_fields aform ac).1,
      (applyAchievementEdit_fields aform ac).2.1,
      (applyAchievementEdit_fields aform ac).2.2.1,
      (applyAchievementEdit_fields aform ac).2.2.2, ?_, ?_⟩,
    ⟨?_, applyBlogEdit_id env bform bl,
      (applyBlogEdit_fields env bform bl).1,
      (applyBlogEdit_fields env bform bl).2.1,
      (applyBlogEdit_fields env bform bl).2.2.1,
      (applyBlogEdit_fields env bform bl).2.2.2.1,
      (applyBlogEdit_fields env bform bl).2.2.2.2, ?_, ?_⟩⟩
  · unfold edit_skill
    rw [hs]
    exact find?_map_update_eq (fun z => z.id) (applySkillEdit env sform)
      (applySkillEdit_id env sform) tid db.skills s hs
  · rw [edit_skill_found env db tid sform s hs,
      show (({ db with skills := db.skills.map (fun x =>
        if x.id == tid then applySkillEdit env sform x else x) },
        Response.redirect "skills") : DB × Response).1.skills =
        db.skills.map (fun x => if x.id == tid then applySkillEdit env sform x else x)
      from rfl,
      find?_map_update_ne (fun z => z.id) (applySkillEdit env sform)
        (applySkillEdit_id env sform) tid bid hne db.skills]
    exact hs2
  · rw [edit_skill_found env db tid sform s hs]
  · unfold edit_education
    rw [hed]
    exact find?_map_update_eq (fun z => z.id) (applyEducationEdit env eform)
      (applyEducationEdit_id env eform) tid db.education ed hed
  · rw [edit_education_found env db tid eform ed hed,
      show (({ db with education := db.education.map (fun x =>
        if x.id == tid then applyEducationEdit env eform x else x) },
        Response.redirect "education") : DB × Response).1.education =
        db.education.map (fun x => if x.id == tid then applyEducationEdit env eform x else x)
      from rfl,
      find?_map_update_ne (fun z => z.id) (applyEducationEdit env eform)
        (applyEducationEdit_id env eform) tid bid hne db.education]
    exact hed2
  · rw [edit_education_found env db tid eform ed hed]
  · unfold edit_experience
    rw [hex]
    exact find?_map_update_eq (fun z => z.id) (applyExperienceEdit xform)
      (applyExperienceEdit_id xform) tid db.experience ex hex
  · rw [edit_experience_found db tid xform ex hex,
      show (({ db with experience := db.experience.map (fun x =>
        if x.id == tid then applyExperienceEdit xform x else x) },
        Response.redirect "experience") : DB × Response).1.experience =
        db.experience.map (fun x => if x.id == tid then applyExperienceEdit xform x else x)
      from rfl,
      find?_map_update_ne (fun z => z.id) (applyExperienceEdit xform)
        (applyExperienceEdit_id xform) tid bid hne db.experience]
    exact hex2
  · rw [edit_experience_found db tid xform ex hex]
  · unfold edit_project
    rw [hpr]
    exact find?_map_update_eq (fun z => z.id) (applyProjectEdit env pform)
      (applyProjectEdit_id env pform) tid db.projects pr hpr
  · rw [edit_project_found env db tid pform pr hpr,
      show (({ db with projects := db.projects.map (fun x =>
        if x.id == tid then applyProjectEdit env pform x else x) },
        Response.redirect "projects") : DB × Response).1.projects =
        db.projects.map (fun x => if x.id == tid then applyProjectEdit env pform x else x)
      from rfl,
      find?_map_update_ne (fun z => z.id) (applyProjectEdit env pform)
        (applyProjectEdit_id env pform) tid bid hne db.projects]
    exact hpr2
  · rw [edit_project_found env db tid pform pr hpr]
  · unfold edit_research
    rw [hre]
    exact find?_map_update_eq (fun z => z.id) (applyResearchEdit env rform)
      (applyResearchEdit_id env rform) tid db.research re hre
  · rw [edit_research_found env db tid rform re hre,
      show (({ db with research := db.research.map (fun x =>
        if x.id == tid then applyResearchEdit env rform x else x) },
        Response.redirect "research") : DB × Response).1.research =
        db.research.map (fun x => if x.id == tid then applyResearchEdit env rform x else x)
      from rfl,
      find?_map_update_ne (fun z => z.id) (applyResearchEdit env rform)
        (applyResearchEdit_id env rform) tid bid hne db.research]
    exact hre2
  · rw [edit_research_found env db tid rform re hre]
  · unfold edit_achievement
    rw [hac]
    exact find?_map_update_eq (fun z => z.id) (applyAchievementEdit aform)
      (applyAchievementEdit_id aform) tid db.achievements ac hac
  · rw [edit_achievement_found db tid aform ac hac,
      show (({ db with achievements := db.achievements.map (fun x =>
        if x.id == tid then applyAchievementEdit aform x else x) },
        Response.redirect "achievements") : DB × Response).1.achievements =
        db.achievements.map (fun x => if x.id == tid then applyAchievementEdit aform x else x)
      from rfl,
      find?_map_update_ne (fun z => z.id) (applyAchievementEdit aform)
        (applyAchievementEdit_id aform) tid bid hne db.achievements]
    exact hac2
  · rw [edit_achievement_found db tid aform ac hac]
  · unfold edit_blog
    rw [hbl]
    exact find?_map_update_eq (fun z => z.id) (applyBlogEdit env bform)
      (applyBlogEdit_id env bform) tid db.blogs bl hbl
  · rw [edit_blog_found env db tid bform bl hbl,
      show (({ db with blogs := db.blogs.map (fun x =>
        if x.id == tid then applyBlogEdit env bform x else x) },
        Response.redirect "blog") : DB × Response).1.blogs =
        db.blogs.map (fun x => if x.id == tid then applyBlogEdit env bform x else x)
      from rfl,
      find?_map_update_ne (fun z => z.id) (applyBlogEdit env bform)
        (applyBlogEdit_id env bform) tid bid hne db.blogs]
    exact hbl2
  · rw [edit_blog_found env db tid bform bl hbl]

/-- Witness for C5 at the populated store: every entity kind edited at id 1
with a concrete submission, id 2 as bystander. -/
theorem edit_changes_only_submitted_fields_witness :
    ((edit_skill envOk dbW 1 sformW).1.skills.find? (fun z => z.id == 1) =
      some (applySkillEdit envOk sformW skillW1) ∧
    (applySkillEdit envOk sformW skillW1).id = skillW1.id ∧
    (applySkillEdit envOk sformW skillW1).name = sformW.name ∧
    (applySkillEdit envOk sformW skillW1).percentage = sformW.percentage ∧
    (applySkillEdit envOk sformW skillW1).image_url =
      urlAfterUpload (uploadedUrl envOk sformW.image_file "skills") skillW1.image_url ∧
    (edit_skill envOk dbW 1 sformW).1.skills.find? (fun z => z.id == 2) = some skillW2 ∧
    (edit_skill envOk dbW 1 sformW).1 =
      { dbW with skills := (edit_skill envOk dbW 1 sformW).1.skills }) ∧
    ((edit_education envOk dbW 1 eformW).1.education.find? (fun z => z.id == 1) =
      some (applyEducationEdit envOk eformW eduW) ∧
    (applyEducationEdit envOk eformW eduW).id = eduW.id ∧
    (applyEducationEdit envOk eformW eduW).degree = eformW.degree ∧
    (applyEducationEdit envOk eformW eduW).institution = eformW.institution ∧
    (applyEducationEdit envOk eformW eduW).year_range = eformW.year_range ∧
    (applyEducationEdit envOk eformW eduW).description = eformW.description ∧
    (applyEducationEdit envOk eformW eduW).logo_url =
      urlAfterUpload (uploadedUrl envOk eformW.logo_file "education") eduW.logo_url ∧
    (edit_education envOk dbW 1 eformW).1.education.find? (fun z => z.id == 2) = some eduW2 ∧
    (edit_education envOk dbW 1 eformW).1 =
      { dbW with education := (edit_education envOk dbW 1 eformW).1.education }) ∧
    ((edit_experience dbW 1 xformW).1.experience.find? (fun z => z.id == 1) =
      some (applyExperienceEdit xformW expW) ∧
    (applyExperienceEdit xformW expW).id = expW.id ∧
    (applyExperienceEdit xformW expW).role = xformW.role ∧
    (applyExperienceEdit xformW expW).company = xformW.company ∧
    (applyExperienceEdit xformW expW).year_range = xformW.year_range ∧
    (applyExperienceEdit xformW expW).description = xformW.description ∧
    (edit_experience dbW 1 xformW).1.experience.find? (fun z => z.id == 2) = some expW2 ∧
    (edit_experience dbW 1 xformW).1 =
      { dbW with experience := (edit_experience dbW 1 xformW).1.experience }) ∧
    ((edit_project envOk dbW 1 pformW).1.projects.find? (fun z => z.id == 1) =
      some (applyProjectEdit envOk pformW projW1) ∧
    (applyProjectEdit envOk pformW projW1).id = projW1.id ∧
    (applyProjectEdit envOk pformW projW1).title = pformW.title ∧
    (applyProjectEdit envOk pformW projW1).category = pformW.category ∧
    (applyProjectEdit envOk pformW projW1).project_link = pformW.project_link ∧
    (applyProjectEdit envOk pformW projW1).image_url =
      urlAfterUpload (uploadedUrl envOk pformW.image_file "projects")
        (if isTruthy pformW.image_url then pformW.image_url else projW1.image_url) ∧
    (edit_project envOk dbW 1 pformW).1.projects.find? (fun z => z.id == 2) = some projW2 ∧
    (edit_project envOk dbW 1 pformW).1 =
      { dbW with projects := (edit_project envOk dbW 1 pformW).1.projects }) ∧
    ((edit_research envOk dbW 1 rformW).1.research.find? (fun z => z.id == 1) =
      some (applyResearchEdit envOk rformW resW) ∧
    (applyResearchEdit envOk rformW resW).id = resW.id ∧
    (applyResearchEdit envOk rformW resW).title = rformW.title ∧
    (applyResearchEdit envOk rformW resW).publication_date = rformW.publication_date ∧
    (applyResearchEdit envOk rformW resW).description = rformW.description ∧
    (applyResearchEdit envOk rformW resW).link =
      urlAfterUpload (uploadedUrl envOk rformW.research_pdf "research")
        (some rformW.link) ∧
    (edit_research envOk dbW 1 rformW).1.research.find? (fun z => z.id == 2) = some resW2 ∧
    (edit_research envOk dbW 1 rformW).1 =
      { dbW with research := (edit_research envOk dbW 1 rformW).1.research }) ∧
    ((edit_achievement dbW 1 aformW).1.achievements.find? (fun z => z.id == 1) =
      some (applyAchievementEdit aformW achW) ∧
    (applyAchievementEdit aformW achW).id = achW.id ∧
    (applyAchievementEdit aformW achW).title = aformW.title ∧
    (applyAchievementEdit aformW achW).description = aformW.description ∧
    (applyAchievementEdit aformW achW).date = aformW.date ∧
    (applyAchievementEdit aformW achW).link = aformW.link ∧
    (edit_achievement dbW 1 aformW).1.achievements.find? (fun z => z.id == 2) = some achW2 ∧
    (edit_achievement dbW 1 aformW).1 =
      { dbW with achievements := (edit_achievement dbW 1 aformW).1.achievements }) ∧
    ((edit_blog envOk dbW 1 bformW).1.blogs.find? (fun z => z.id == 1) =
      some (applyBlogEdit envOk bformW blogW) ∧
    (applyBlogEdit envOk bformW blogW).id = blogW.id ∧
    (applyBlogEdit envOk bformW blogW).title = bformW.title ∧
    (applyBlogEdit envOk bformW blogW).content = bformW.content ∧
    (applyBlogEdit envOk bformW blogW).tags = bformW.tags ∧
    (applyBlogEdit envOk bformW blogW).date = bformW.date ∧
    (applyBlogEdit envOk bformW blogW).cover_image =
      urlAfterUpload (uploadedUrl envOk bformW.cover_file "blog") blogW.cover_image ∧
    (edit_blog envOk dbW 1 bformW).1.blogs.find? (fun z => z.id == 2) = some blogW2 ∧
    (edit_blog envOk dbW 1 bformW).1 =
      { dbW with blogs := (edit_blog envOk dbW 1 bformW).1.blogs }) :=
  edit_changes_only_submitted_fields envOk dbW 1 2 (by decide)
    sformW skillW1 skillW2 rfl rfl eformW eduW eduW2 rfl rfl
    xformW expW expW2 rfl rfl pformW projW1 projW2 rfl rfl
    rformW resW resW2 rfl rfl aformW achW achW2 rfl rfl
    bformW blogW blogW2 rfl rfl
